import Mathlib

/-!
Verification of the BME280 driver core (`src/BME280.c`, `src/BME280.h`) of the
lvgl-weather repository, as a shallow embedding in Lean 4.

Modelling conventions:
* C machine integers are modelled as `Int` together with explicit two's-complement
  wrapping (`wrap`, `i8`, `i16`, `i32`, `i64`).  A chain of C `+`, `-`, `*`, `<<`
  operations at one width is congruent modulo `2^w` to the unwrapped integer chain,
  so in the definitions the wrap is applied at every point where congruence does not
  suffice: before every arithmetic right shift, before every division, comparison,
  and at every store into a C variable.  `>>` on signed operands is the arithmetic
  shift, i.e. floor division by a power of two (`asr`); C `/` on `int64_t` truncates
  toward zero (`Int.tdiv`).
* Register bytes are `Nat`s; every byte read out of a bus buffer goes through
  `byteAt`, which reduces modulo 256 exactly as storage in a C `uint8_t` does.
* IEEE-754 `float` results are modelled as exact rational numbers (`ℚ`); the
  fixed-point integer pipelines, clamps and guards — the substance of the claims —
  are unaffected by this idealisation.
* The injected bus (`bme280_bus_t` in C, a callback record) is modelled as a pair of
  pure functions: `read reg len` returns a C return code and the bytes delivered,
  `write reg bytes` returns a return code.  Every operation additionally returns the
  ordered list of bus transactions (`BusEvent`) it performed, so that claims about
  write elision, write ordering and poll counts can be stated.
* The `bme280_t` device struct keeps the fields the claims are about: calibration,
  settings, `t_fine` and `calib_loaded`.  Operations take the device as an argument
  and return the updated device in place of C's in-place mutation.
-/

/-- Two's-complement wrap of an integer to a signed `w`-bit value. -/
def wrap (w : Nat) (x : Int) : Int := (x + 2 ^ (w - 1)) % 2 ^ w - 2 ^ (w - 1)

/-- C `int8_t` store / cast. -/
def i8 (x : Int) : Int := wrap 8 x

/-- C `int16_t` store / cast. -/
def i16 (x : Int) : Int := wrap 16 x

/-- C `int32_t` store / cast. -/
def i32 (x : Int) : Int := wrap 32 x

/-- C `int64_t` store / cast. -/
def i64 (x : Int) : Int := wrap 64 x

/-- Arithmetic shift right on a signed value: floor division by `2^n`
(`/` on `Int` is Euclidean division, which is floor division for a positive
divisor). -/
def asr (x : Int) (n : Nat) : Int := x / 2 ^ n

/-- Left shift, as plain multiplication; the callers wrap the result where the
C expression's width makes it wrap. -/
def shl (x : Int) (n : Nat) : Int := x * 2 ^ n

/-- Extracting byte `i` of a bus buffer into a C `uint8_t`: out-of-range reads
default to 0 and the stored value is reduced modulo 256. -/
def byteAt (l : List Nat) (i : Nat) : Nat := l.getD i 0 % 256

/-- `u16_le` from BME280.c: little-endian unsigned 16-bit decode of two bytes. -/
def u16_le (l : List Nat) (i : Nat) : Int := (byteAt l i ||| (byteAt l (i + 1) <<< 8) : Nat)

/-- `s16_le` from BME280.c: little-endian signed 16-bit decode of two bytes. -/
def s16_le (l : List Nat) (i : Nat) : Int := i16 (u16_le l i)

/-- Calibration parameters from NVM (`bme280_calib_t`); values as mathematical
integers in the range of their C types. -/
structure bme280_calib_t where
  dig_T1 : Int
  dig_T2 : Int
  dig_T3 : Int
  dig_P1 : Int
  dig_P2 : Int
  dig_P3 : Int
  dig_P4 : Int
  dig_P5 : Int
  dig_P6 : Int
  dig_P7 : Int
  dig_P8 : Int
  dig_P9 : Int
  dig_H1 : Int
  dig_H2 : Int
  dig_H3 : Int
  dig_H4 : Int
  dig_H5 : Int
  dig_H6 : Int
deriving DecidableEq, Repr

/-- Sensor configuration (`bme280_settings_t`); the enum ordinals as `Nat`s. -/
structure bme280_settings_t where
  osr_t : Nat
  osr_p : Nat
  osr_h : Nat
  filter : Nat
  standby : Nat
  mode : Nat
deriving DecidableEq, Repr

/-- Device context (`bme280_t`), restricted to the fields the driver logic uses. -/
structure bme280_t where
  calib : bme280_calib_t
  settings : bme280_settings_t
  t_fine : Int
  calib_loaded : Bool
deriving DecidableEq, Repr

/-- A single bus transaction performed by the driver. -/
inductive BusEvent where
  | readEv : Nat → Nat → BusEvent
  | writeEv : Nat → List Nat → BusEvent
  | delayEv : Nat → BusEvent
deriving DecidableEq, Repr

/-- The injected bus callbacks (`bme280_bus_t`): `read reg len` yields a return
code (0 = `BME280_OK`) and the bytes delivered; `write reg bytes` yields a return
code. -/
structure bme280_bus_t where
  read : Nat → Nat → Int × List Nat
  write : Nat → List Nat → Int

/-- `BME280_OK`. -/
def BME280_OK : Int := 0

/-- `BME280_E_INVALID_ARG`. -/
def BME280_E_INVALID_ARG : Int := -3

/-- `BME280_E_CHIP_ID_MISMATCH`. -/
def BME280_E_CHIP_ID_MISMATCH : Int := -4

/-- `BME280_REG_ID`. -/
def BME280_REG_ID : Nat := 0xD0

/-- `BME280_REG_RESET`. -/
def BME280_REG_RESET : Nat := 0xE0

/-- `BME280_REG_CTRL_HUM`. -/
def BME280_REG_CTRL_HUM : Nat := 0xF2

/-- `BME280_REG_STATUS`. -/
def BME280_REG_STATUS : Nat := 0xF3

/-- `BME280_REG_CTRL_MEAS`. -/
def BME280_REG_CTRL_MEAS : Nat := 0xF4

/-- `BME280_REG_CONFIG`. -/
def BME280_REG_CONFIG : Nat := 0xF5

/-- `BME280_REG_PRESS_MSB`. -/
def BME280_REG_PRESS_MSB : Nat := 0xF7

/-- `BME280_CALIB00_START`. -/
def BME280_CALIB00_START : Nat := 0x88

/-- `BME280_CALIB26_START`. -/
def BME280_CALIB26_START : Nat := 0xE1

/-- `BME280_SOFT_RESET` command byte. -/
def BME280_SOFT_RESET : Nat := 0xB6

/-- `BME280_CHIP_ID`. -/
def BME280_CHIP_ID : Nat := 0x60

/-- `bme280_write_u8`: a one-byte register write through the bus callback,
together with the transaction it performs. -/
def bme280_write_u8 (bus : bme280_bus_t) (reg v : Nat) : Int × List BusEvent :=
  (bus.write reg [v], [BusEvent.writeEv reg [v]])

/-- `bme280_read_u8`: a one-byte register read; yields the return code, the byte
(as stored into the C `uint8_t` out-parameter) and the transaction. -/
def bme280_read_u8 (bus : bme280_bus_t) (reg : Nat) : Int × Nat × List BusEvent :=
  let r := bus.read reg 1
  (r.1, byteAt r.2 0, [BusEvent.readEv reg 1])

/-- `bme280_update_bits`: read-modify-write of `mask` bits of register `reg` to
`value`, skipping the write when the computed value equals the current one
(BME280.c lines 18-25). -/
def bme280_update_bits (bus : bme280_bus_t) (reg mask value : Nat) : Int × List BusEvent :=
  let r := bus.read reg 1
  if r.1 ≠ 0 then (r.1, [BusEvent.readEv reg 1])
  else
    let cur := byteAt r.2 0
    let newv := (cur &&& (255 ^^^ mask)) ||| (value &&& mask)
    if newv = cur then (0, [BusEvent.readEv reg 1])
    else (bus.write reg [newv], [BusEvent.readEv reg 1, BusEvent.writeEv reg [newv]])

/-- The status-poll loop of `bme280_soft_reset` (BME280.c lines 41-47): up to
`fuel` reads of the STATUS register; a clear `im_update` bit (bit 0) or exhausted
fuel means success, a bus error is returned immediately, otherwise a 2 ms delay
precedes the next attempt. -/
def bme280_soft_reset_poll (bus : bme280_bus_t) : Nat → Int × List BusEvent
  | 0 => (0, [])
  | n + 1 =>
    let r := bme280_read_u8 bus BME280_REG_STATUS
    if r.1 ≠ 0 then (r.1, r.2.2)
    else if r.2.1 &&& 0x01 = 0 then (0, r.2.2)
    else
      let rest := bme280_soft_reset_poll bus n
      (rest.1, r.2.2 ++ [BusEvent.delayEv 2] ++ rest.2)

/-- `bme280_soft_reset` (BME280.c lines 36-49): write the reset command, then
poll STATUS up to 20 times; proceed (success) even if the bit never clears. -/
def bme280_soft_reset (bus : bme280_bus_t) : Int × List BusEvent :=
  let w := bme280_write_u8 bus BME280_REG_RESET BME280_SOFT_RESET
  if w.1 ≠ 0 then (w.1, w.2)
  else
    let p := bme280_soft_reset_poll bus 20
    (p.1, w.2 ++ p.2)

/-- The field assignments of `bme280_read_calibration` performed from the first
(26-byte, 0x88..0xA1) calibration block (BME280.c lines 60-74). -/
def bme280_calib_part1 (c : bme280_calib_t) (b1 : List Nat) : bme280_calib_t :=
  { c with
    dig_T1 := u16_le b1 0
    dig_T2 := s16_le b1 2
    dig_T3 := s16_le b1 4
    dig_P1 := u16_le b1 6
    dig_P2 := s16_le b1 8
    dig_P3 := s16_le b1 10
    dig_P4 := s16_le b1 12
    dig_P5 := s16_le b1 14
    dig_P6 := s16_le b1 16
    dig_P7 := s16_le b1 18
    dig_P8 := s16_le b1 20
    dig_P9 := s16_le b1 22
    dig_H1 := (byteAt b1 24 : Nat) }

/-- The field assignments of `bme280_read_calibration` performed from the second
(7-byte, 0xE1..0xE7) calibration block, including the 12-bit packed `H4`/`H5`
sign extension (BME280.c lines 80-89). -/
def bme280_calib_part2 (c : bme280_calib_t) (b2 : List Nat) : bme280_calib_t :=
  let h4_raw : Nat := (byteAt b2 3 <<< 4) ||| (byteAt b2 4 &&& 0x0F)
  let h5_raw : Nat := (byteAt b2 5 <<< 4) ||| (byteAt b2 4 >>> 4)
  let h4 : Int := if h4_raw &&& 0x0800 ≠ 0 then i16 (h4_raw ||| 0xF000 : Nat) else i16 h4_raw
  let h5 : Int := if h5_raw &&& 0x0800 ≠ 0 then i16 (h5_raw ||| 0xF000 : Nat) else i16 h5_raw
  { c with
    dig_H2 := s16_le b2 0
    dig_H3 := (byteAt b2 2 : Nat)
    dig_H4 := h4
    dig_H5 := h5
    dig_H6 := i8 (byteAt b2 6) }

/-- `bme280_read_calibration` (BME280.c lines 54-93): burst-read the two
calibration blocks; the temperature/pressure fields are stored before the second
read, and `calib_loaded` is set only after both reads succeed. -/
def bme280_read_calibration (bus : bme280_bus_t) (dev : bme280_t) :
    Int × bme280_t × List BusEvent :=
  let r1 := bus.read BME280_CALIB00_START 26
  if r1.1 ≠ 0 then (r1.1, dev, [BusEvent.readEv BME280_CALIB00_START 26])
  else
    let dev1 := { dev with calib := bme280_calib_part1 dev.calib r1.2 }
    let r2 := bus.read BME280_CALIB26_START 7
    if r2.1 ≠ 0 then
      (r2.1, dev1, [BusEvent.readEv BME280_CALIB00_START 26, BusEvent.readEv BME280_CALIB26_START 7])
    else
      (0, { dev1 with calib := bme280_calib_part2 dev1.calib r2.2, calib_loaded := true },
        [BusEvent.readEv BME280_CALIB00_START 26, BusEvent.readEv BME280_CALIB26_START 7])

/-- `bme280_set_oversampling` (BME280.c lines 131-151): validate the three
ordinals, read-modify-write the ctrl_hum bits, then read ctrl_meas and write it
back unconditionally with the mode bits preserved; in-memory settings are
updated only after both register operations succeed. -/
def bme280_set_oversampling (bus : bme280_bus_t) (dev : bme280_t) (osr_t osr_p osr_h : Nat) :
    Int × bme280_t × List BusEvent :=
  if osr_t > 5 ∨ osr_p > 5 ∨ osr_h > 5 then (BME280_E_INVALID_ARG, dev, [])
  else
    let u := bme280_update_bits bus BME280_REG_CTRL_HUM 0x07 osr_h
    if u.1 ≠ 0 then (u.1, dev, u.2)
    else
      let r := bus.read BME280_REG_CTRL_MEAS 1
      if r.1 ≠ 0 then (r.1, dev, u.2 ++ [BusEvent.readEv BME280_REG_CTRL_MEAS 1])
      else
        let cur := byteAt r.2 0
        let ctrl_meas := (cur &&& 0x03) ||| ((osr_t &&& 0x07) <<< 5) ||| ((osr_p &&& 0x07) <<< 2)
        let w := bus.write BME280_REG_CTRL_MEAS [ctrl_meas]
        if w ≠ 0 then
          (w, dev, u.2 ++ [BusEvent.readEv BME280_REG_CTRL_MEAS 1,
            BusEvent.writeEv BME280_REG_CTRL_MEAS [ctrl_meas]])
        else
          (0, { dev with settings :=
              { dev.settings with osr_t := osr_t, osr_p := osr_p, osr_h := osr_h } },
            u.2 ++ [BusEvent.readEv BME280_REG_CTRL_MEAS 1,
              BusEvent.writeEv BME280_REG_CTRL_MEAS [ctrl_meas]])

/-- `bme280_set_filter` (BME280.c lines 153-159). -/
def bme280_set_filter (bus : bme280_bus_t) (dev : bme280_t) (filter : Nat) :
    Int × bme280_t × List BusEvent :=
  if filter > 4 then (BME280_E_INVALID_ARG, dev, [])
  else
    let u := bme280_update_bits bus BME280_REG_CONFIG 0x1C (filter <<< 2)
    if u.1 = 0 then (0, { dev with settings := { dev.settings with filter := filter } }, u.2)
    else (u.1, dev, u.2)

/-- `bme280_set_standby` (BME280.c lines 161-167). -/
def bme280_set_standby (bus : bme280_bus_t) (dev : bme280_t) (standby : Nat) :
    Int × bme280_t × List BusEvent :=
  if standby > 7 then (BME280_E_INVALID_ARG, dev, [])
  else
    let u := bme280_update_bits bus BME280_REG_CONFIG 0xE0 (standby <<< 5)
    if u.1 = 0 then (0, { dev with settings := { dev.settings with standby := standby } }, u.2)
    else (u.1, dev, u.2)

/-- `bme280_set_mode` (BME280.c lines 169-175). -/
def bme280_set_mode (bus : bme280_bus_t) (dev : bme280_t) (mode : Nat) :
    Int × bme280_t × List BusEvent :=
  if ¬(mode = 0 ∨ mode = 1 ∨ mode = 3) then (BME280_E_INVALID_ARG, dev, [])
  else
    let u := bme280_update_bits bus BME280_REG_CTRL_MEAS 0x03 mode
    if u.1 = 0 then (0, { dev with settings := { dev.settings with mode := mode } }, u.2)
    else (u.1, dev, u.2)

/-- `bme280_init` (BME280.c lines 95-129): reset transient state, verify the
chip identity, soft-reset, load calibration, store the default settings in
memory, then push them to the device through the four configuration calls,
aborting on the first failure. -/
def bme280_init (bus : bme280_bus_t) (dev0 : bme280_t) : Int × bme280_t × List BusEvent :=
  let dev := { dev0 with t_fine := 0, calib_loaded := false }
  let idr := bus.read BME280_REG_ID 1
  if idr.1 ≠ 0 then (idr.1, dev, [BusEvent.readEv BME280_REG_ID 1])
  else if byteAt idr.2 0 ≠ BME280_CHIP_ID then
    (BME280_E_CHIP_ID_MISMATCH, dev, [BusEvent.readEv BME280_REG_ID 1])
  else
    let sr := bme280_soft_reset bus
    if sr.1 ≠ 0 then (sr.1, dev, [BusEvent.readEv BME280_REG_ID 1] ++ sr.2)
    else
      let rc := bme280_read_calibration bus dev
      if rc.1 ≠ 0 then (rc.1, rc.2.1, [BusEvent.readEv BME280_REG_ID 1] ++ sr.2 ++ rc.2.2)
      else
        let dev2 := { rc.2.1 with settings :=
          { osr_t := 1, osr_p := 1, osr_h := 1, filter := 0, standby := 5, mode := 0 } }
        let ev0 := [BusEvent.readEv BME280_REG_ID 1] ++ sr.2 ++ rc.2.2
        let so := bme280_set_oversampling bus dev2 1 1 1
        if so.1 ≠ 0 then (so.1, so.2.1, ev0 ++ so.2.2)
        else
          let sf := bme280_set_filter bus so.2.1 0
          if sf.1 ≠ 0 then (sf.1, sf.2.1, ev0 ++ so.2.2 ++ sf.2.2)
          else
            let ss := bme280_set_standby bus sf.2.1 5
            if ss.1 ≠ 0 then (ss.1, ss.2.1, ev0 ++ so.2.2 ++ sf.2.2 ++ ss.2.2)
            else
              let sm := bme280_set_mode bus ss.2.1 0
              (sm.1, sm.2.1, ev0 ++ so.2.2 ++ sf.2.2 ++ ss.2.2 ++ sm.2.2)

/-- `bme280_read_raw` (BME280.c lines 177-191): one 8-byte burst starting at the
pressure MSB; returns `(adc_T, adc_P, adc_H)`. -/
def bme280_read_raw (bus : bme280_bus_t) : Int × (Int × Int × Int) × List BusEvent :=
  let r := bus.read BME280_REG_PRESS_MSB 8
  if r.1 ≠ 0 then (r.1, (0, 0, 0), [BusEvent.readEv BME280_REG_PRESS_MSB 8])
  else
    let p : Int := ((byteAt r.2 0 <<< 12) ||| (byteAt r.2 1 <<< 4) ||| (byteAt r.2 2 >>> 4) : Nat)
    let t : Int := ((byteAt r.2 3 <<< 12) ||| (byteAt r.2 4 <<< 4) ||| (byteAt r.2 5 >>> 4) : Nat)
    let h : Int := ((byteAt r.2 6 <<< 8) ||| byteAt r.2 7 : Nat)
    (0, (t, p, h), [BusEvent.readEv BME280_REG_PRESS_MSB 8])

/-- The `var1` term of `bme280_compensate_temperature` (BME280.c line 196):
`((adc_T >> 3) - (dig_T1 << 1)) * dig_T2 >> 11` in `int32_t` arithmetic (the
intermediate wraps collapse modulo `2^32` into the wrap before the shift). -/
def bme280_temp_var1 (c : bme280_calib_t) (adc_T : Int) : Int :=
  asr (i32 ((asr adc_T 3 - shl c.dig_T1 1) * c.dig_T2)) 11

/-- The `var2` term of `bme280_compensate_temperature` (BME280.c line 197). -/
def bme280_temp_var2 (c : bme280_calib_t) (adc_T : Int) : Int :=
  asr (i32 (asr (i32 ((asr adc_T 4 - c.dig_T1) * (asr adc_T 4 - c.dig_T1))) 12 * c.dig_T3)) 14

/-- The `t_fine` cross-term stored by `bme280_compensate_temperature`
(BME280.c line 198): `var1 + var2` stored into an `int32_t`. -/
def bme280_temp_fine (c : bme280_calib_t) (adc_T : Int) : Int :=
  i32 (bme280_temp_var1 c adc_T + bme280_temp_var2 c adc_T)

/-- `bme280_compensate_temperature` (BME280.c lines 193-201): returns the
updated device (with the stored `t_fine`) and the temperature in °C. -/
def bme280_compensate_temperature (dev : bme280_t) (adc_T : Int) : bme280_t × ℚ :=
  if dev.calib_loaded = false then (dev, 0)
  else
    let tf := bme280_temp_fine dev.calib adc_T
    ({ dev with t_fine := tf }, ((i32 (tf * 5 + 128) : ℚ) / 256) / 100)

/-- `bme280_compensate_pressure` (BME280.c lines 203-221), with `let` shadowing
mirroring the C reassignments of `var1`/`var2`/`p`; `Int.tdiv` is C's
truncating `int64_t` division. -/
def bme280_compensate_pressure (dev : bme280_t) (adc_P : Int) : ℚ :=
  if dev.calib_loaded = false then 0
  else
    let c := dev.calib
    let v := dev.t_fine - 128000
    let var2 := i64 (v * v * c.dig_P6)
    let var2 := i64 (var2 + i64 (shl (v * c.dig_P5) 17))
    let var2 := i64 (var2 + shl c.dig_P4 35)
    let var1 := i64 (asr (i64 (v * v * c.dig_P3)) 8 + i64 (shl (v * c.dig_P2) 12))
    let var1 := asr (i64 ((shl 1 47 + var1) * c.dig_P1)) 33
    if var1 = 0 then 0
    else
      let p := 1048576 - adc_P
      let p := Int.tdiv (i64 ((i64 (shl p 31) - var2) * 3125)) var1
      let var1 := asr (i64 (c.dig_P9 * asr p 13 * asr p 13)) 25
      let var2 := asr (i64 (c.dig_P8 * p)) 19
      let p := i64 (asr (i64 (p + var1 + var2)) 8 + shl c.dig_P7 4)
      (p : ℚ) / 256

/-- The pre-clamp fixed-point intermediate `v_x1_u32r` of
`bme280_compensate_humidity` (BME280.c lines 225-229), before the
`[0, 419430400]` clamp. -/
def bme280_humidity_preclamp (c : bme280_calib_t) (t_fine adc_H : Int) : Int :=
  let x := i32 (t_fine - 76800)
  let a := asr (i32 (shl adc_H 14 - shl c.dig_H4 20 - c.dig_H5 * x + 16384)) 15
  let b := asr (i32 (asr (i32 (x * c.dig_H6)) 10 * (asr (i32 (x * c.dig_H3)) 11 + 32768))) 10
  let d := asr (i32 ((b + 2097152) * c.dig_H2 + 8192)) 14
  let v := i32 (a * d)
  i32 (v - asr (i32 (asr (i32 (asr v 15 * asr v 15)) 7 * c.dig_H1)) 4)

/-- `bme280_compensate_humidity` (BME280.c lines 223-236): the intermediate is
clamped to `[0, 419430400]`, scaled by `1/1024` after a 12-bit shift, and the
result is clamped again to `[0, 100]`. -/
def bme280_compensate_humidity (dev : bme280_t) (adc_H : Int) : ℚ :=
  if dev.calib_loaded = false then 0
  else
    let v := bme280_humidity_preclamp dev.calib dev.t_fine adc_H
    let v := if v < 0 then 0 else v
    let v := if v > 419430400 then 419430400 else v
    let h : ℚ := (asr v 12 : ℚ) / 1024
    let h := if h < 0 then 0 else h
    if h > 100 then 100 else h

/-- A single compensated reading (`bme280_reading_t`), floats as exact
rationals. -/
structure bme280_reading_t where
  temperature_c : ℚ
  pressure_pa : ℚ
  humidity_rh : ℚ
deriving DecidableEq, Repr

/-- The measuring-status poll loop of `bme280_read_measurement` (BME280.c lines
245-251): up to `fuel` reads of STATUS; a clear `measuring` bit (bit 3) breaks
out, a bus error is returned immediately, otherwise a 5 ms delay precedes the
next attempt; exhausting the fuel is not an error. -/
def bme280_poll_measuring (bus : bme280_bus_t) : Nat → Int × List BusEvent
  | 0 => (0, [])
  | n + 1 =>
    let r := bme280_read_u8 bus BME280_REG_STATUS
    if r.1 ≠ 0 then (r.1, r.2.2)
    else if r.2.1 &&& 0x08 = 0 then (0, r.2.2)
    else
      let rest := bme280_poll_measuring bus n
      (rest.1, r.2.2 ++ [BusEvent.delayEv 5] ++ rest.2)

/-- The tail of `bme280_read_measurement` (BME280.c lines 254-261): read the raw
burst and compensate, temperature first (establishing `t_fine`), then pressure
and humidity. -/
def bme280_read_after_wait (bus : bme280_bus_t) (dev : bme280_t) (evs : List BusEvent) :
    Int × bme280_t × Option bme280_reading_t × List BusEvent :=
  let rr := bme280_read_raw bus
  if rr.1 ≠ 0 then (rr.1, dev, none, evs ++ rr.2.2)
  else
    let adc_T := rr.2.1.1
    let adc_P := rr.2.1.2.1
    let adc_H := rr.2.1.2.2
    let ct := bme280_compensate_temperature dev adc_T
    let p := bme280_compensate_pressure ct.1 adc_P
    let h := bme280_compensate_humidity ct.1 adc_H
    (0, ct.1, some { temperature_c := ct.2, pressure_pa := p, humidity_rh := h }, evs ++ rr.2.2)

/-- `bme280_read_measurement` (BME280.c lines 238-262): in forced mode, first
re-arm the one-shot acquisition via `bme280_set_mode`, then poll the measuring
bit up to 50 times, then read and compensate regardless of whether the bit
cleared. -/
def bme280_read_measurement (bus : bme280_bus_t) (dev : bme280_t) :
    Int × bme280_t × Option bme280_reading_t × List BusEvent :=
  if dev.settings.mode = 1 then
    let sm := bme280_set_mode bus dev 1
    if sm.1 ≠ 0 then (sm.1, sm.2.1, none, sm.2.2)
    else
      let pl := bme280_poll_measuring bus 50
      if pl.1 ≠ 0 then (pl.1, sm.2.1, none, sm.2.2 ++ pl.2)
      else bme280_read_after_wait bus sm.2.1 (sm.2.2 ++ pl.2)
  else bme280_read_after_wait bus dev []

/-! ### Arithmetic facts about the machine-integer model -/

theorem wrap_emod (w : Nat) (x : Int) : wrap w x % 2 ^ w = x % 2 ^ w := by
  unfold wrap
  conv_lhs => rw [Int.sub_emod]
  rw [Int.emod_emod_of_dvd _ dvd_rfl, ← Int.sub_emod, add_sub_cancel_right]

theorem wrap_congr {w : Nat} {x y : Int} (h : x % 2 ^ w = y % 2 ^ w) :
    wrap w x = wrap w y := by
  unfold wrap
  rw [Int.add_emod x, h, ← Int.add_emod]

theorem i32_lb (x : Int) : -(2 ^ 31) ≤ i32 x := by
  unfold i32 wrap
  have h1 : 0 ≤ (x + 2 ^ (32 - 1)) % 2 ^ 32 := Int.emod_nonneg _ (by norm_num)
  omega

theorem i32_ub (x : Int) : i32 x < 2 ^ 31 := by
  unfold i32 wrap
  have h2 : (x + 2 ^ (32 - 1)) % 2 ^ 32 < 2 ^ 32 := Int.emod_lt_of_pos _ (by norm_num)
  omega

theorem i32_eq_self {x : Int} (h1 : -(2 ^ 31) ≤ x) (h2 : x < 2 ^ 31) : i32 x = x := by
  unfold i32 wrap
  have h3 : (x + 2 ^ (32 - 1)) % 2 ^ 32 = x + 2 ^ (32 - 1) :=
    Int.emod_eq_of_lt (by omega) (by omega)
  omega

theorem asr11_lb (x : Int) : -1048576 ≤ asr (i32 x) 11 := by
  unfold asr
  have h := Int.ediv_le_ediv (show (0 : Int) < 2 ^ 11 by norm_num) (i32_lb x)
  omega

theorem asr11_ub (x : Int) : asr (i32 x) 11 < 1048576 := by
  unfold asr
  rw [Int.ediv_lt_iff_lt_mul (by norm_num)]
  have := i32_ub x
  omega

theorem asr14_lb (x : Int) : -131072 ≤ asr (i32 x) 14 := by
  unfold asr
  have h := Int.ediv_le_ediv (show (0 : Int) < 2 ^ 14 by norm_num) (i32_lb x)
  omega

theorem asr14_ub (x : Int) : asr (i32 x) 14 < 131072 := by
  unfold asr
  rw [Int.ediv_lt_iff_lt_mul (by norm_num)]
  have := i32_ub x
  omega

/-! ### C1: temperature compensation formula -/

/-- C1: for every device with calibration loaded and every raw temperature count,
`bme280_compensate_temperature` stores into `t_fine` the sum of the two 32-bit
fixed-point terms `var1 = ((adc_T>>3 - 2*dig_T1)*dig_T2)>>11` and
`var2 = ((((adc_T>>4 - dig_T1)*(adc_T>>4 - dig_T1))>>12)*dig_T3)>>14`, and
returns that sum converted to degrees Celsius as `((t_fine*5+128)/256)/100`. -/
theorem bme280_c1_temperature_formula (dev : bme280_t) (adc_T : Int)
    (h : dev.calib_loaded = true) :
    (bme280_compensate_temperature dev adc_T).1.t_fine =
      asr (i32 ((asr adc_T 3 - 2 * dev.calib.dig_T1) * dev.calib.dig_T2)) 11 +
      asr (i32 (asr (i32 ((asr adc_T 4 - dev.calib.dig_T1) * (asr adc_T 4 - dev.calib.dig_T1))) 12
        * dev.calib.dig_T3)) 14 ∧
    (bme280_compensate_temperature dev adc_T).2 =
      (((bme280_compensate_temperature dev adc_T).1.t_fine * 5 + 128 : Int) : ℚ) / 256 / 100 := by
  have hv1 : bme280_temp_var1 dev.calib adc_T =
      asr (i32 ((asr adc_T 3 - 2 * dev.calib.dig_T1) * dev.calib.dig_T2)) 11 := by
    simp only [bme280_temp_var1, shl]
    ring_nf
  have hv2 : bme280_temp_var2 dev.calib adc_T =
      asr (i32 (asr (i32 ((asr adc_T 4 - dev.calib.dig_T1) * (asr adc_T 4 - dev.calib.dig_T1))) 12
        * dev.calib.dig_T3)) 14 := rfl
  have hsum : bme280_temp_fine dev.calib adc_T =
      bme280_temp_var1 dev.calib adc_T + bme280_temp_var2 dev.calib adc_T := by
    apply i32_eq_self
    · have := asr11_lb ((asr adc_T 3 - shl dev.calib.dig_T1 1) * dev.calib.dig_T2)
      have := asr14_lb (asr (i32 ((asr adc_T 4 - dev.calib.dig_T1) *
        (asr adc_T 4 - dev.calib.dig_T1))) 12 * dev.calib.dig_T3)
      simp only [bme280_temp_var1, bme280_temp_var2]
      omega
    · have := asr11_ub ((asr adc_T 3 - shl dev.calib.dig_T1 1) * dev.calib.dig_T2)
      have := asr14_ub (asr (i32 ((asr adc_T 4 - dev.calib.dig_T1) *
        (asr adc_T 4 - dev.calib.dig_T1))) 12 * dev.calib.dig_T3)
      simp only [bme280_temp_var1, bme280_temp_var2]
      omega
  have htf : (bme280_compensate_temperature dev adc_T).1.t_fine =
      bme280_temp_fine dev.calib adc_T := by
    simp [bme280_compensate_temperature, h]
  refine ⟨?_, ?_⟩
  · rw [htf, hsum, hv1, hv2]
  · have hb1 : -1048576 ≤ bme280_temp_var1 dev.calib adc_T := by
      have := asr11_lb ((asr adc_T 3 - shl dev.calib.dig_T1 1) * dev.calib.dig_T2)
      simpa [bme280_temp_var1] using this
    have hb2 : bme280_temp_var1 dev.calib adc_T < 1048576 := by
      have := asr11_ub ((asr adc_T 3 - shl dev.calib.dig_T1 1) * dev.calib.dig_T2)
      simpa [bme280_temp_var1] using this
    have hb3 : -131072 ≤ bme280_temp_var2 dev.calib adc_T := by
      have := asr14_lb (asr (i32 ((asr adc_T 4 - dev.calib.dig_T1) *
        (asr adc_T 4 - dev.calib.dig_T1))) 12 * dev.calib.dig_T3)
      simpa [bme280_temp_var2] using this
    have hb4 : bme280_temp_var2 dev.calib adc_T < 131072 := by
      have := asr14_ub (asr (i32 ((asr adc_T 4 - dev.calib.dig_T1) *
        (asr adc_T 4 - dev.calib.dig_T1))) 12 * dev.calib.dig_T3)
      simpa [bme280_temp_var2] using this
    have hscale : i32 (bme280_temp_fine dev.calib adc_T * 5 + 128) =
        bme280_temp_fine dev.calib adc_T * 5 + 128 := by
      apply i32_eq_self <;> rw [hsum] <;> omega
    simp only [bme280_compensate_temperature, h, Bool.true_eq_false, if_false, htf]
    rw [hscale]

/-- Concrete calibration constants (the Bosch datasheet example values) used as
witness inputs. -/
def calib_example : bme280_calib_t :=
  { dig_T1 := 27504, dig_T2 := 26435, dig_T3 := -1000,
    dig_P1 := 36477, dig_P2 := -10685, dig_P3 := 3024, dig_P4 := 2855, dig_P5 := 140,
    dig_P6 := -7, dig_P7 := 15500, dig_P8 := -14600, dig_P9 := 6000,
    dig_H1 := 75, dig_H2 := 350, dig_H3 := 0, dig_H4 := 350, dig_H5 := 50, dig_H6 := 30 }

/-- A device with the example calibration loaded, used as witness input. -/
def dev_example : bme280_t :=
  { calib := calib_example, settings := ⟨1, 1, 1, 0, 5, 0⟩, t_fine := 0, calib_loaded := true }

/-- Witness for C1 at the datasheet raw count 519888. -/
theorem bme280_c1_temperature_formula_witness :
    dev_example.calib_loaded = true ∧
    ((bme280_compensate_temperature dev_example 519888).1.t_fine =
      asr (i32 ((asr 519888 3 - 2 * dev_example.calib.dig_T1) * dev_example.calib.dig_T2)) 11 +
      asr (i32 (asr (i32 ((asr 519888 4 - dev_example.calib.dig_T1) *
        (asr 519888 4 - dev_example.calib.dig_T1))) 12 * dev_example.calib.dig_T3)) 14 ∧
    (bme280_compensate_temperature dev_example 519888).2 =
      (((bme280_compensate_temperature dev_example 519888).1.t_fine * 5 + 128 : Int) : ℚ)
        / 256 / 100) :=
  ⟨rfl, bme280_c1_temperature_formula dev_example 519888 rfl⟩

/-! ### C7: silent degradation without calibration -/

/-- C7: on a device whose calibration was never loaded, each compensation
function returns exactly 0.0 for every raw input (temperature additionally
leaves the device unchanged), rather than failing. -/
theorem bme280_c7_uncalibrated_returns_zero (dev : bme280_t) (raw : Int)
    (h : dev.calib_loaded = false) :
    bme280_compensate_temperature dev raw = (dev, 0) ∧
    bme280_compensate_pressure dev raw = 0 ∧
    bme280_compensate_humidity dev raw = 0 := by
  refine ⟨?_, ?_, ?_⟩ <;>
    simp [bme280_compensate_temperature, bme280_compensate_pressure,
      bme280_compensate_humidity, h]

/-- A device on which calibration was never loaded, used as witness input. -/
def dev_unloaded : bme280_t :=
  { calib := calib_example, settings := ⟨1, 1, 1, 0, 5, 0⟩, t_fine := 0, calib_loaded := false }

/-- Witness for C7 at the raw count 519888. -/
theorem bme280_c7_uncalibrated_returns_zero_witness :
    dev_unloaded.calib_loaded = false ∧
    (bme280_compensate_temperature dev_unloaded 519888 = (dev_unloaded, 0) ∧
    bme280_compensate_pressure dev_unloaded 519888 = 0 ∧
    bme280_compensate_humidity dev_unloaded 519888 = 0) :=
  ⟨rfl, bme280_c7_uncalibrated_returns_zero dev_unloaded 519888 rfl⟩

/-! ### C5: humidity double clamping -/

theorem int_clamp_eq (v : Int) :
    (if (if v < 0 then 0 else v) > 419430400 then 419430400 else if v < 0 then 0 else v) =
      min 419430400 (max 0 v) := by
  simp only [min_def, max_def]
  split_ifs <;> omega

theorem rat_clamp_eq (q : ℚ) :
    (if (if q < 0 then 0 else q) > 100 then 100 else if q < 0 then 0 else q) =
      if q < 0 then 0 else if q > 100 then 100 else q := by
  split_ifs <;> first | rfl | linarith

theorem rat_clamp_lb (q : ℚ) :
    0 ≤ if (if q < 0 then 0 else q) > 100 then 100 else if q < 0 then 0 else q := by
  split_ifs <;> linarith

theorem rat_clamp_ub (q : ℚ) :
    (if (if q < 0 then 0 else q) > 100 then 100 else if q < 0 then 0 else q) ≤ 100 := by
  split_ifs <;> linarith

/-- C5: for every device with calibration loaded, every cross-term and every raw
humidity count, `bme280_compensate_humidity` clamps the fixed-point intermediate
to `[0, 419430400]` before the `1/1024` scaling, clamps the floating-point
result to `[0, 100]`, and hence always returns a value in `[0, 100]`. -/
theorem bme280_c5_humidity_clamped (dev : bme280_t) (adc_H : Int)
    (h : dev.calib_loaded = true) :
    bme280_compensate_humidity dev adc_H =
      (let vc := min 419430400 (max 0 (bme280_humidity_preclamp dev.calib dev.t_fine adc_H))
       let hq : ℚ := (asr vc 12 : ℚ) / 1024
       if hq < 0 then 0 else if hq > 100 then 100 else hq) ∧
    0 ≤ bme280_compensate_humidity dev adc_H ∧
    bme280_compensate_humidity dev adc_H ≤ 100 := by
  refine ⟨?_, ?_, ?_⟩
  · simp only [bme280_compensate_humidity, h, Bool.true_eq_false, if_false]
    rw [int_clamp_eq, rat_clamp_eq]
  · simp only [bme280_compensate_humidity, h, Bool.true_eq_false, if_false]
    exact rat_clamp_lb _
  · simp only [bme280_compensate_humidity, h, Bool.true_eq_false, if_false]
    exact rat_clamp_ub _

/-- A calibrated device with the datasheet cross-term, used as witness input;
at raw humidity count 0 its pre-clamp intermediate is -526077176 < 0. -/
def dev_humidity_example : bme280_t := { dev_example with t_fine := 128422 }

/-- Witness for C5 at raw humidity count 0 (pre-clamp intermediate below 0). -/
theorem bme280_c5_humidity_clamped_witness :
    dev_humidity_example.calib_loaded = true ∧
    bme280_humidity_preclamp dev_humidity_example.calib dev_humidity_example.t_fine 0 < 0 ∧
    (bme280_compensate_humidity dev_humidity_example 0 =
      (let vc := min 419430400
        (max 0 (bme280_humidity_preclamp dev_humidity_example.calib dev_humidity_example.t_fine 0))
       let hq : ℚ := (asr vc 12 : ℚ) / 1024
       if hq < 0 then 0 else if hq > 100 then 100 else hq) ∧
    0 ≤ bme280_compensate_humidity dev_humidity_example 0 ∧
    bme280_compensate_humidity dev_humidity_example 0 ≤ 100) :=
  ⟨rfl, by decide, bme280_c5_humidity_clamped dev_humidity_example 0 rfl⟩

/-! ### C6: pressure division-by-zero guard -/

/-- The first denominator term of the pressure pipeline as the claim states it:
`((1<<47) + ((var*var*dig_P3)>>8) + ((var*dig_P2)<<12)) * dig_P1 >> 33` with
`var = t_fine - 128000`, in 64-bit arithmetic. -/
def spec_press_var1 (c : bme280_calib_t) (t_fine : Int) : Int :=
  let v := t_fine - 128000
  asr (i64 ((shl 1 47 + asr (i64 (v * v * c.dig_P3)) 8 + shl (v * c.dig_P2) 12) * c.dig_P1)) 33

theorem i64_emod (x : Int) : i64 x % 2 ^ 64 = x % 2 ^ 64 := by
  unfold i64
  exact wrap_emod 64 x

theorem i64_congr {a b : Int} (h : a % 2 ^ 64 = b % 2 ^ 64) : i64 a = i64 b := by
  unfold i64
  exact wrap_congr h

theorem press_var1_eq (c : bme280_calib_t) (tf : Int) :
    asr (i64 ((shl 1 47 +
      i64 (asr (i64 ((tf - 128000) * (tf - 128000) * c.dig_P3)) 8 +
        i64 (shl ((tf - 128000) * c.dig_P2) 12))) * c.dig_P1)) 33 =
    spec_press_var1 c tf := by
  unfold spec_press_var1
  simp only []
  generalize asr (i64 ((tf - 128000) * (tf - 128000) * c.dig_P3)) 8 = A
  generalize shl ((tf - 128000) * c.dig_P2) 12 = B
  refine congrArg (fun z => asr z 33) ?_
  apply i64_congr
  have hAB : i64 (A + i64 B) % 2 ^ 64 = (A + B) % 2 ^ 64 := by
    rw [i64_emod, Int.add_emod, i64_emod, ← Int.add_emod]
  conv_lhs => rw [Int.mul_emod, Int.add_emod, hAB, ← Int.add_emod, ← add_assoc, ← Int.mul_emod]

/-- C6: with calibration loaded, if the first denominator term `var1` of
`bme280_compensate_pressure` evaluates to exactly zero the function returns 0.0
without performing the division; otherwise the division by `var1` is performed
and the pressure in Pascals (1/256 fixed point scaled) is returned. -/
theorem bme280_c6_pressure_zero_guard (dev : bme280_t) (adc_P : Int)
    (h : dev.calib_loaded = true) :
    (spec_press_var1 dev.calib dev.t_fine = 0 → bme280_compensate_pressure dev adc_P = 0) ∧
    (spec_press_var1 dev.calib dev.t_fine ≠ 0 →
      bme280_compensate_pressure dev adc_P =
        (let c := dev.calib
         let v := dev.t_fine - 128000
         let var2 := i64 (i64 (i64 (v * v * c.dig_P6) + i64 (shl (v * c.dig_P5) 17)) +
           shl c.dig_P4 35)
         let p := Int.tdiv (i64 ((i64 (shl (1048576 - adc_P) 31) - var2) * 3125))
           (spec_press_var1 dev.calib dev.t_fine)
         let v1 := asr (i64 (c.dig_P9 * asr p 13 * asr p 13)) 25
         let v2 := asr (i64 (c.dig_P8 * p)) 19
         (i64 (asr (i64 (p + v1 + v2)) 8 + shl c.dig_P7 4) : ℚ) / 256)) := by
  have hvar1 := press_var1_eq dev.calib dev.t_fine
  constructor
  · intro hz
    simp only [bme280_compensate_pressure, h, Bool.true_eq_false, if_false]
    rw [hvar1, hz]
    simp
  · intro hnz
    simp only [bme280_compensate_pressure, h, Bool.true_eq_false, if_false]
    rw [hvar1, if_neg hnz]

/-- A calibrated device whose `dig_P1` is zero, so the pressure denominator term
is exactly zero; used as witness input. -/
def dev_pressure_zero : bme280_t :=
  { dev_example with calib := { calib_example with dig_P1 := 0 }, t_fine := 128422 }

/-- Witness for C6: with `dig_P1 = 0` the denominator term is zero and pressure
compensation returns 0. -/
theorem bme280_c6_pressure_zero_guard_witness :
    dev_pressure_zero.calib_loaded = true ∧
    spec_press_var1 dev_pressure_zero.calib dev_pressure_zero.t_fine = 0 ∧
    bme280_compensate_pressure dev_pressure_zero 415148 = 0 :=
  ⟨rfl, by decide, (bme280_c6_pressure_zero_guard dev_pressure_zero 415148 rfl).1 (by decide)⟩

/-! ### C2: calibration decoding -/

theorem i16_eq_self {x : Int} (h1 : -(2 ^ 15) ≤ x) (h2 : x < 2 ^ 15) : i16 x = x := by
  unfold i16 wrap
  have h3 : (x + 2 ^ (16 - 1)) % 2 ^ 16 = x + 2 ^ (16 - 1) :=
    Int.emod_eq_of_lt (by omega) (by omega)
  omega

theorem byteAt_eq_getD {l : List Nat} (hl : ∀ b ∈ l, b < 256) (i : Nat) :
    byteAt l i = l.getD i 0 := by
  unfold byteAt
  rcases Nat.lt_or_ge i l.length with h | h
  · rw [List.getD_eq_getElem l 0 h]
    exact Nat.mod_eq_of_lt (hl _ (List.getElem_mem h))
  · rw [List.getD_eq_default l 0 h]

/-- The calibration decoding as the claim words it: all two-byte fields as
little-endian 16-bit values (signed or unsigned per field), `H1`/`H3` as raw
bytes, `H6` as a signed byte, and `H4`/`H5` as `(byte3<<4)|(byte4 & 0x0F)` and
`(byte5<<4)|(byte4>>4)`, each sign-extended by OR-ing in `0xF000` when bit 11 is
set before interpreting the result as a signed 16-bit value. -/
def spec_decode_calib (b1 b2 : List Nat) : bme280_calib_t :=
  let le16 : List Nat → Nat → Nat := fun l i => l.getD i 0 ||| (l.getD (i + 1) 0 <<< 8)
  let h4_raw : Nat := (b2.getD 3 0 <<< 4) ||| (b2.getD 4 0 &&& 0x0F)
  let h5_raw : Nat := (b2.getD 5 0 <<< 4) ||| (b2.getD 4 0 >>> 4)
  { dig_T1 := (le16 b1 0 : Nat)
    dig_T2 := i16 (le16 b1 2)
    dig_T3 := i16 (le16 b1 4)
    dig_P1 := (le16 b1 6 : Nat)
    dig_P2 := i16 (le16 b1 8)
    dig_P3 := i16 (le16 b1 10)
    dig_P4 := i16 (le16 b1 12)
    dig_P5 := i16 (le16 b1 14)
    dig_P6 := i16 (le16 b1 16)
    dig_P7 := i16 (le16 b1 18)
    dig_P8 := i16 (le16 b1 20)
    dig_P9 := i16 (le16 b1 22)
    dig_H1 := (b1.getD 24 0 : Nat)
    dig_H2 := i16 (le16 b2 0)
    dig_H3 := (b2.getD 2 0 : Nat)
    dig_H4 := if h4_raw &&& 0x0800 ≠ 0 then i16 (h4_raw ||| 0xF000 : Nat) else (h4_raw : Int)
    dig_H5 := if h5_raw &&& 0x0800 ≠ 0 then i16 (h5_raw ||| 0xF000 : Nat) else (h5_raw : Int)
    dig_H6 := i8 (b2.getD 6 0) }

theorem h4_if_eq (raw : Nat) (hr : raw < 4096) :
    (if raw &&& 0x0800 ≠ 0 then i16 (raw ||| 0xF000 : Nat) else i16 raw) =
    (if raw &&& 0x0800 ≠ 0 then i16 (raw ||| 0xF000 : Nat) else (raw : Int)) := by
  split_ifs with hbit
  · rfl
  · exact i16_eq_self (by omega) (by omega)

/-- C2: for every 26-byte and 7-byte calibration payload (whose entries are
bytes), `bme280_read_calibration` succeeds, marks calibration loaded, and
decodes all fields exactly as `spec_decode_calib` states; in particular a packed
`H4` raw pattern `0x800` (byte3 = 0x80, low nibble of byte4 = 0) decodes to
-2048, not +2048. -/
theorem bme280_c2_calibration_decode (bus : bme280_bus_t) (dev : bme280_t)
    (b1 b2 : List Nat)
    (h1 : bus.read BME280_CALIB00_START 26 = (0, b1))
    (h2 : bus.read BME280_CALIB26_START 7 = (0, b2))
    (hl1 : b1.length = 26) (hl2 : b2.length = 7)
    (hb1 : ∀ b ∈ b1, b < 256) (hb2 : ∀ b ∈ b2, b < 256) :
    (bme280_read_calibration bus dev).1 = 0 ∧
    (bme280_read_calibration bus dev).2.1.calib_loaded = true ∧
    (bme280_read_calibration bus dev).2.1.calib = spec_decode_calib b1 b2 ∧
    (b2.getD 3 0 = 0x80 ∧ b2.getD 4 0 &&& 0x0F = 0 →
      (bme280_read_calibration bus dev).2.1.calib.dig_H4 = -2048) := by
  have hcal : (bme280_read_calibration bus dev).2.1.calib =
      bme280_calib_part2 (bme280_calib_part1 dev.calib b1) b2 := by
    simp [bme280_read_calibration, h1, h2]
  have hspec : bme280_calib_part2 (bme280_calib_part1 dev.calib b1) b2 =
      spec_decode_calib b1 b2 := by
    have e1 := byteAt_eq_getD hb1
    have e2 := byteAt_eq_getD hb2
    have hraw4 : ((b2.getD 3 0 <<< 4) ||| (b2.getD 4 0 &&& 0x0F)) < 4096 := by
      apply Nat.or_lt_two_pow (n := 12)
      · have : b2.getD 3 0 < 256 := by
          rw [← e2 3]
          exact Nat.mod_lt _ (by norm_num)
        calc b2.getD 3 0 <<< 4 = b2.getD 3 0 * 16 := by rw [Nat.shiftLeft_eq]
        _ < 4096 := by omega
      · have : b2.getD 4 0 &&& 0x0F ≤ 0x0F := Nat.and_le_right
        omega
    have hraw5 : ((b2.getD 5 0 <<< 4) ||| (b2.getD 4 0 >>> 4)) < 4096 := by
      apply Nat.or_lt_two_pow (n := 12)
      · have : b2.getD 5 0 < 256 := by
          rw [← e2 5]
          exact Nat.mod_lt _ (by norm_num)
        calc b2.getD 5 0 <<< 4 = b2.getD 5 0 * 16 := by rw [Nat.shiftLeft_eq]
        _ < 4096 := by omega
      · have hsr : b2.getD 4 0 >>> 4 = b2.getD 4 0 / 2 ^ 4 := Nat.shiftRight_eq_div_pow _ 4
        have h4b : b2.getD 4 0 < 256 := by
          rw [← e2 4]
          exact Nat.mod_lt _ (by norm_num)
        omega
    have hif4 := h4_if_eq ((b2.getD 3 0 <<< 4) ||| (b2.getD 4 0 &&& 0x0F)) hraw4
    have hif5 := h4_if_eq ((b2.getD 5 0 <<< 4) ||| (b2.getD 4 0 >>> 4)) hraw5
    simp only [bme280_calib_part1, bme280_calib_part2, spec_decode_calib, u16_le, s16_le,
      e1, e2, hif4, hif5]
  refine ⟨by simp [bme280_read_calibration, h1, h2], by simp [bme280_read_calibration, h1, h2],
    hcal.trans hspec, ?_⟩
  rintro ⟨e3, e4⟩
  rw [hcal.trans hspec]
  simp only [spec_decode_calib, e3, e4]
  decide

/-- First (26-byte) synthetic calibration payload for the C2 witness. -/
def calib_b1 : List Nat := List.range 26

/-- Second (7-byte) synthetic calibration payload for the C2 witness; byte 3 is
0x80 and the low nibble of byte 4 is 0, so the packed `H4` raw value is 0x800. -/
def calib_b2 : List Nat := [0x34, 0x12, 7, 0x80, 0x00, 0x2A, 0x85]

/-- A bus delivering the synthetic calibration payloads. -/
def bus_calib_example : bme280_bus_t :=
  { read := fun reg len =>
      if reg = 0x88 ∧ len = 26 then (0, calib_b1)
      else if reg = 0xE1 ∧ len = 7 then (0, calib_b2)
      else (0, [0])
    write := fun _ _ => 0 }

/-- Witness for C2 on the synthetic payloads, exercising the negative packed
`H4` value 0x800 → -2048. -/
theorem bme280_c2_calibration_decode_witness :
    bus_calib_example.read BME280_CALIB00_START 26 = (0, calib_b1) ∧
    bus_calib_example.read BME280_CALIB26_START 7 = (0, calib_b2) ∧
    calib_b1.length = 26 ∧ calib_b2.length = 7 ∧
    (∀ b ∈ calib_b1, b < 256) ∧ (∀ b ∈ calib_b2, b < 256) ∧
    ((bme280_read_calibration bus_calib_example dev_unloaded).1 = 0 ∧
     (bme280_read_calibration bus_calib_example dev_unloaded).2.1.calib_loaded = true ∧
     (bme280_read_calibration bus_calib_example dev_unloaded).2.1.calib =
       spec_decode_calib calib_b1 calib_b2 ∧
     (calib_b2.getD 3 0 = 0x80 ∧ calib_b2.getD 4 0 &&& 0x0F = 0 →
       (bme280_read_calibration bus_calib_example dev_unloaded).2.1.calib.dig_H4 = -2048)) :=
  ⟨by decide, by decide, by decide, by decide, by decide, by decide,
    bme280_c2_calibration_decode bus_calib_example dev_unloaded calib_b1 calib_b2
      (by decide) (by decide) (by decide) (by decide) (by decide) (by decide)⟩

/-! ### C8: invalid-argument rejection, no partial commit -/

/-- C8: an out-of-range ordinal (oversampling > 5, filter > 4, standby > 7, or
a mode other than 0/1/3) makes the corresponding setter return
`BME280_E_INVALID_ARG` with no bus transaction and the device unchanged; and,
in general, a failing setter leaves the device (hence the in-memory settings)
unchanged. -/
theorem bme280_c8_invalid_argument (bus : bme280_bus_t) (dev : bme280_t)
    (osr_t osr_p osr_h filter standby mode : Nat) :
    (osr_t > 5 ∨ osr_p > 5 ∨ osr_h > 5 →
      bme280_set_oversampling bus dev osr_t osr_p osr_h = (BME280_E_INVALID_ARG, dev, [])) ∧
    (filter > 4 → bme280_set_filter bus dev filter = (BME280_E_INVALID_ARG, dev, [])) ∧
    (standby > 7 → bme280_set_standby bus dev standby = (BME280_E_INVALID_ARG, dev, [])) ∧
    (¬(mode = 0 ∨ mode = 1 ∨ mode = 3) →
      bme280_set_mode bus dev mode = (BME280_E_INVALID_ARG, dev, [])) ∧
    ((bme280_set_oversampling bus dev osr_t osr_p osr_h).1 ≠ 0 →
      (bme280_set_oversampling bus dev osr_t osr_p osr_h).2.1 = dev) ∧
    ((bme280_set_filter bus dev filter).1 ≠ 0 → (bme280_set_filter bus dev filter).2.1 = dev) ∧
    ((bme280_set_standby bus dev standby).1 ≠ 0 →
      (bme280_set_standby bus dev standby).2.1 = dev) ∧
    ((bme280_set_mode bus dev mode).1 ≠ 0 → (bme280_set_mode bus dev mode).2.1 = dev) := by
  refine ⟨?_, ?_, ?_, ?_, ?_, ?_, ?_, ?_⟩
  · intro hg
    simp [bme280_set_oversampling, hg]
  · intro hg
    simp [bme280_set_filter, hg]
  · intro hg
    simp [bme280_set_standby, hg]
  · intro hg
    simp [bme280_set_mode, hg]
  · intro hrc
    simp only [bme280_set_oversampling] at hrc ⊢
    split_ifs at hrc ⊢ <;> simp_all
  · intro hrc
    simp only [bme280_set_filter] at hrc ⊢
    split_ifs at hrc ⊢ <;> simp_all
  · intro hrc
    simp only [bme280_set_standby] at hrc ⊢
    split_ifs at hrc ⊢ <;> simp_all
  · intro hrc
    simp only [bme280_set_mode] at hrc ⊢
    split_ifs at hrc ⊢ <;> simp_all

/-- A bus whose every read succeeds with a zero byte and whose every write
succeeds, used as witness input. -/
def bus_ok : bme280_bus_t :=
  { read := fun _ _ => (0, [0]), write := fun _ _ => 0 }

/-- Witness for C8 at the out-of-range ordinals 6 (oversampling), 5 (filter),
8 (standby) and 2 (mode). -/
theorem bme280_c8_invalid_argument_witness :
    bme280_set_oversampling bus_ok dev_example 6 1 1 = (BME280_E_INVALID_ARG, dev_example, []) ∧
    bme280_set_filter bus_ok dev_example 5 = (BME280_E_INVALID_ARG, dev_example, []) ∧
    bme280_set_standby bus_ok dev_example 8 = (BME280_E_INVALID_ARG, dev_example, []) ∧
    bme280_set_mode bus_ok dev_example 2 = (BME280_E_INVALID_ARG, dev_example, []) :=
  ⟨(bme280_c8_invalid_argument bus_ok dev_example 6 1 1 5 8 2).1 (by decide),
   (bme280_c8_invalid_argument bus_ok dev_example 6 1 1 5 8 2).2.1 (by decide),
   (bme280_c8_invalid_argument bus_ok dev_example 6 1 1 5 8 2).2.2.1 (by decide),
   (bme280_c8_invalid_argument bus_ok dev_example 6 1 1 5 8 2).2.2.2.1 (by decide)⟩

/-! ### C3: no-op write elision -/

/-- A bus on which `bme280_set_oversampling 1 1 1` computes a ctrl_meas value
equal to the current register contents (ctrl_hum already 0x01, ctrl_meas
already 0x24). -/
def bus_c3 : bme280_bus_t :=
  { read := fun reg _ =>
      if reg = 0xF2 then (0, [0x01])
      else if reg = 0xF4 then (0, [0x24])
      else (0, [0])
    write := fun _ _ => 0 }

/-- Counterexample to C3 as stated: on `bus_c3`, `bme280_set_oversampling`
computes a ctrl_meas value (0x24) equal to the value just read from ctrl_meas,
yet it still issues a write transaction to ctrl_meas (the write is
unconditional in the source, BME280.c line 143); only the read-modify-write
helper `bme280_update_bits` elides equal writes. -/
theorem bme280_c3_ctrl_meas_always_written_counterexample :
    bus_c3.read BME280_REG_CTRL_MEAS 1 = (0, [0x24]) ∧
    (byteAt [0x24] 0 &&& 0x03) ||| ((1 &&& 0x07) <<< 5) ||| ((1 &&& 0x07) <<< 2) =
      byteAt [0x24] 0 ∧
    (bme280_set_oversampling bus_c3 dev_example 1 1 1).1 = 0 ∧
    BusEvent.writeEv BME280_REG_CTRL_MEAS [0x24] ∈
      (bme280_set_oversampling bus_c3 dev_example 1 1 1).2.2 := by
  decide

/-- C3 amended: the no-op write elision holds for every configuration call that
goes through the read-modify-write helper — `setFilter`, `setStandby`,
`setMode`, and the ctrl_hum phase of `setOversampling` — with the call still
reporting success; `setOversampling`'s ctrl_meas write, by contrast, is
unconditional (see the counterexample). -/
theorem bme280_c3_noop_elision_amended (bus : bme280_bus_t) (dev : bme280_t)
    (filter standby mode osr_t osr_p osr_h : Nat) :
    (filter ≤ 4 → (bus.read BME280_REG_CONFIG 1).1 = 0 →
      (byteAt (bus.read BME280_REG_CONFIG 1).2 0 &&& (255 ^^^ 0x1C)) |||
          ((filter <<< 2) &&& 0x1C) = byteAt (bus.read BME280_REG_CONFIG 1).2 0 →
      bme280_set_filter bus dev filter =
        (0, { dev with settings := { dev.settings with filter := filter } },
          [BusEvent.readEv BME280_REG_CONFIG 1])) ∧
    (standby ≤ 7 → (bus.read BME280_REG_CONFIG 1).1 = 0 →
      (byteAt (bus.read BME280_REG_CONFIG 1).2 0 &&& (255 ^^^ 0xE0)) |||
          ((standby <<< 5) &&& 0xE0) = byteAt (bus.read BME280_REG_CONFIG 1).2 0 →
      bme280_set_standby bus dev standby =
        (0, { dev with settings := { dev.settings with standby := standby } },
          [BusEvent.readEv BME280_REG_CONFIG 1])) ∧
    (mode = 0 ∨ mode = 1 ∨ mode = 3 → (bus.read BME280_REG_CTRL_MEAS 1).1 = 0 →
      (byteAt (bus.read BME280_REG_CTRL_MEAS 1).2 0 &&& (255 ^^^ 0x03)) |||
          (mode &&& 0x03) = byteAt (bus.read BME280_REG_CTRL_MEAS 1).2 0 →
      bme280_set_mode bus dev mode =
        (0, { dev with settings := { dev.settings with mode := mode } },
          [BusEvent.readEv BME280_REG_CTRL_MEAS 1])) ∧
    (osr_t ≤ 5 → osr_p ≤ 5 → osr_h ≤ 5 → (bus.read BME280_REG_CTRL_HUM 1).1 = 0 →
      (byteAt (bus.read BME280_REG_CTRL_HUM 1).2 0 &&& (255 ^^^ 0x07)) |||
          (osr_h &&& 0x07) = byteAt (bus.read BME280_REG_CTRL_HUM 1).2 0 →
      ∀ bs, BusEvent.writeEv BME280_REG_CTRL_HUM bs ∉
        (bme280_set_oversampling bus dev osr_t osr_p osr_h).2.2) := by
  refine ⟨?_, ?_, ?_, ?_⟩
  · intro hf hrc hnv
    have hu : bme280_update_bits bus BME280_REG_CONFIG 0x1C (filter <<< 2) =
        (0, [BusEvent.readEv BME280_REG_CONFIG 1]) := by
      simp only [bme280_update_bits, hrc]
      simp at hnv
      simp [hnv]
    have hg : ¬ filter > 4 := by omega
    simp [bme280_set_filter, hg, hu]
  · intro hs hrc hnv
    have hu : bme280_update_bits bus BME280_REG_CONFIG 0xE0 (standby <<< 5) =
        (0, [BusEvent.readEv BME280_REG_CONFIG 1]) := by
      simp only [bme280_update_bits, hrc]
      simp at hnv
      simp [hnv]
    have hg : ¬ standby > 7 := by omega
    simp [bme280_set_standby, hg, hu]
  · intro hm hrc hnv
    have hu : bme280_update_bits bus BME280_REG_CTRL_MEAS 0x03 mode =
        (0, [BusEvent.readEv BME280_REG_CTRL_MEAS 1]) := by
      simp only [bme280_update_bits, hrc]
      simp at hnv
      simp [hnv]
    simp only [bme280_set_mode]
    rw [if_neg (not_not_intro hm)]
    simp [hu]
  · intro ht hp hh hrc hnv bs
    have hu : bme280_update_bits bus BME280_REG_CTRL_HUM 0x07 osr_h =
        (0, [BusEvent.readEv BME280_REG_CTRL_HUM 1]) := by
      simp only [bme280_update_bits, hrc]
      simp at hnv
      simp [hnv]
    have hg : ¬(osr_t > 5 ∨ osr_p > 5 ∨ osr_h > 5) := by omega
    simp only [bme280_set_oversampling]
    rw [if_neg hg, hu]
    split_ifs <;> simp [BME280_REG_CTRL_HUM, BME280_REG_CTRL_MEAS]

/-- A bus whose registers already hold the values the C3/C4 witness calls would
write (ctrl_hum = 0x02, ctrl_meas = 0x25, config = 0x0C). -/
def bus_noop : bme280_bus_t :=
  { read := fun reg _ =>
      if reg = 0xF2 then (0, [0x02])
      else if reg = 0xF4 then (0, [0x25])
      else if reg = 0xF5 then (0, [0x0C])
      else (0, [0])
    write := fun _ _ => 0 }

/-- Witness for the amended C3 on `bus_noop`: filter 3, standby 0 and mode 1
leave their registers unchanged, so no write is issued yet the calls succeed
and update the in-memory settings; oversampling (1,1,2) issues no ctrl_hum
write. -/
theorem bme280_c3_noop_elision_amended_witness :
    (bus_noop.read BME280_REG_CONFIG 1).1 = 0 ∧
    (byteAt (bus_noop.read BME280_REG_CONFIG 1).2 0 &&& (255 ^^^ 0x1C)) |||
        ((3 <<< 2) &&& 0x1C) = byteAt (bus_noop.read BME280_REG_CONFIG 1).2 0 ∧
    bme280_set_filter bus_noop dev_example 3 =
      (0, { dev_example with settings := { dev_example.settings with filter := 3 } },
        [BusEvent.readEv BME280_REG_CONFIG 1]) ∧
    bme280_set_standby bus_noop dev_example 0 =
      (0, { dev_example with settings := { dev_example.settings with standby := 0 } },
        [BusEvent.readEv BME280_REG_CONFIG 1]) ∧
    bme280_set_mode bus_noop dev_example 1 =
      (0, { dev_example with settings := { dev_example.settings with mode := 1 } },
        [BusEvent.readEv BME280_REG_CTRL_MEAS 1]) ∧
    BusEvent.writeEv BME280_REG_CTRL_HUM [2] ∉
      (bme280_set_oversampling bus_noop dev_example 1 1 2).2.2 :=
  ⟨by decide, by decide,
   (bme280_c3_noop_elision_amended bus_noop dev_example 3 0 1 1 1 2).1
     (by decide) (by decide) (by decide),
   (bme280_c3_noop_elision_amended bus_noop dev_example 3 0 1 1 1 2).2.1
     (by decide) (by decide) (by decide),
   (bme280_c3_noop_elision_amended bus_noop dev_example 3 0 1 1 1 2).2.2.1
     (by decide) (by decide) (by decide),
   (bme280_c3_noop_elision_amended bus_noop dev_example 3 0 1 1 1 2).2.2.2
     (by decide) (by decide) (by decide) (by decide) (by decide) [2]⟩

/-! ### C4: humidity-control write ordering -/

theorem mv_and_mode (mc t p : Nat) :
    (((mc &&& 3) ||| ((t &&& 7) <<< 5) ||| ((p &&& 7) <<< 2)) &&& 3) = mc &&& 3 := by
  apply Nat.eq_of_testBit_eq
  intro i
  simp only [Nat.testBit_and, Nat.testBit_or, Nat.testBit_shiftLeft]
  match i with
  | 0 => simp
  | 1 => simp
  | (i + 2) =>
    have h3 : Nat.testBit 3 (i + 2) = false := by
      apply Nat.testBit_lt_two_pow
      calc (3 : Nat) < 2 ^ 2 := by norm_num
      _ ≤ 2 ^ (i + 2) := Nat.pow_le_pow_right (by norm_num) (by omega)
    simp [h3]

/-- Counterexample to C4 as stated: on `bus_noop` the ctrl_hum register already
holds the requested oversampling value, so the read-modify-write helper elides
the humidity write; the `bme280_set_oversampling` call succeeds and writes
ctrl_meas, but no ctrl_hum write is issued at all — hence no humidity write
precedes the ctrl_meas write on this successful call. -/
theorem bme280_c4_hum_write_elided_counterexample :
    (bme280_set_oversampling bus_noop dev_example 1 1 2).1 = 0 ∧
    (bme280_set_oversampling bus_noop dev_example 1 1 2).2.2 =
      [BusEvent.readEv BME280_REG_CTRL_HUM 1, BusEvent.readEv BME280_REG_CTRL_MEAS 1,
        BusEvent.writeEv BME280_REG_CTRL_MEAS [0x25]] := by
  decide

/-- C4 amended: on every successful `bme280_set_oversampling` call, any issued
ctrl_hum write strictly precedes the (always issued) ctrl_meas write — the
trace is the ctrl_hum phase (read, plus a write exactly when the ctrl_hum value
changes) followed by the ctrl_meas read and write — and the ctrl_meas write
value preserves the low 2 mode bits of the value just read. -/
theorem bme280_c4_hum_before_meas_amended (bus : bme280_bus_t) (dev : bme280_t)
    (osr_t osr_p osr_h hc hv mc mv : Nat)
    (ht : osr_t ≤ 5) (hp : osr_p ≤ 5) (hh : osr_h ≤ 5)
    (hrc2 : (bus.read BME280_REG_CTRL_HUM 1).1 = 0)
    (hhc : hc = byteAt (bus.read BME280_REG_CTRL_HUM 1).2 0)
    (hhv : hv = (hc &&& (255 ^^^ 0x07)) ||| (osr_h &&& 0x07))
    (hw2 : hv = hc ∨ bus.write BME280_REG_CTRL_HUM [hv] = 0)
    (hrc4 : (bus.read BME280_REG_CTRL_MEAS 1).1 = 0)
    (hmc : mc = byteAt (bus.read BME280_REG_CTRL_MEAS 1).2 0)
    (hmv : mv = (mc &&& 0x03) ||| ((osr_t &&& 0x07) <<< 5) ||| ((osr_p &&& 0x07) <<< 2))
    (hw4 : bus.write BME280_REG_CTRL_MEAS [mv] = 0) :
    (bme280_set_oversampling bus dev osr_t osr_p osr_h).1 = 0 ∧
    (bme280_set_oversampling bus dev osr_t osr_p osr_h).2.2 =
      (if hv = hc then [BusEvent.readEv BME280_REG_CTRL_HUM 1]
       else [BusEvent.readEv BME280_REG_CTRL_HUM 1,
         BusEvent.writeEv BME280_REG_CTRL_HUM [hv]]) ++
      [BusEvent.readEv BME280_REG_CTRL_MEAS 1, BusEvent.writeEv BME280_REG_CTRL_MEAS [mv]] ∧
    mv &&& 0x03 = mc &&& 0x03 := by
  have hmode : mv &&& 0x03 = mc &&& 0x03 := by
    rw [hmv]
    exact mv_and_mode mc osr_t osr_p
  have hg : ¬(osr_t > 5 ∨ osr_p > 5 ∨ osr_h > 5) := by omega
  subst hhv hhc hmv hmc
  have hu : bme280_update_bits bus BME280_REG_CTRL_HUM 0x07 osr_h =
      (0, if (byteAt (bus.read BME280_REG_CTRL_HUM 1).2 0 &&& (255 ^^^ 0x07)) |||
            (osr_h &&& 0x07) = byteAt (bus.read BME280_REG_CTRL_HUM 1).2 0
          then [BusEvent.readEv BME280_REG_CTRL_HUM 1]
          else [BusEvent.readEv BME280_REG_CTRL_HUM 1,
            BusEvent.writeEv BME280_REG_CTRL_HUM
              [(byteAt (bus.read BME280_REG_CTRL_HUM 1).2 0 &&& (255 ^^^ 0x07)) |||
                (osr_h &&& 0x07)]]) := by
    by_cases he : (byteAt (bus.read BME280_REG_CTRL_HUM 1).2 0 &&& (255 ^^^ 0x07)) |||
        (osr_h &&& 0x07) = byteAt (bus.read BME280_REG_CTRL_HUM 1).2 0
    · have he2 := he
      simp only [bme280_update_bits, hrc2]
      simp at he2
      simp [he2, he]
    · have hwr := hw2.resolve_left he
      have he2 := he
      simp only [bme280_update_bits, hrc2]
      simp at he2 hwr
      simp [he2, he, hwr]
  refine ⟨?_, ?_, hmode⟩
  · simp only [bme280_set_oversampling, hu]
    rw [if_neg hg]
    simp [hrc4, hw4]
  · simp only [bme280_set_oversampling, hu]
    rw [if_neg hg]
    simp [hrc4, hw4]

/-- A bus whose ctrl_hum register reads 0 (so the witness oversampling call must
write it) and whose ctrl_meas reads 0x25. -/
def bus_c4w : bme280_bus_t :=
  { read := fun reg _ =>
      if reg = 0xF2 then (0, [0x00])
      else if reg = 0xF4 then (0, [0x25])
      else (0, [0])
    write := fun _ _ => 0 }

/-- Witness for the amended C4 at oversampling (1,1,2) on `bus_c4w`: the
humidity write [0x02] is issued and strictly precedes the ctrl_meas write
[0x25], whose low 2 mode bits equal those just read. -/
theorem bme280_c4_hum_before_meas_amended_witness :
    (bus_c4w.read BME280_REG_CTRL_HUM 1).1 = 0 ∧
    (2 : Nat) = (0 &&& (255 ^^^ 0x07)) ||| (2 &&& 0x07) ∧
    bus_c4w.write BME280_REG_CTRL_HUM [2] = 0 ∧
    (bus_c4w.read BME280_REG_CTRL_MEAS 1).1 = 0 ∧
    (0x25 : Nat) = (0x25 &&& 0x03) ||| ((1 &&& 0x07) <<< 5) ||| ((1 &&& 0x07) <<< 2) ∧
    bus_c4w.write BME280_REG_CTRL_MEAS [0x25] = 0 ∧
    ((bme280_set_oversampling bus_c4w dev_example 1 1 2).1 = 0 ∧
     (bme280_set_oversampling bus_c4w dev_example 1 1 2).2.2 =
       (if (2 : Nat) = 0 then [BusEvent.readEv BME280_REG_CTRL_HUM 1]
        else [BusEvent.readEv BME280_REG_CTRL_HUM 1,
          BusEvent.writeEv BME280_REG_CTRL_HUM [2]]) ++
       [BusEvent.readEv BME280_REG_CTRL_MEAS 1, BusEvent.writeEv BME280_REG_CTRL_MEAS [0x25]] ∧
     (0x25 : Nat) &&& 0x03 = (0x25 : Nat) &&& 0x03) :=
  ⟨by decide, by decide, by decide, by decide, by decide, by decide,
   bme280_c4_hum_before_meas_amended bus_c4w dev_example 1 1 2 0 2 0x25 0x25
     (by decide) (by decide) (by decide) (by decide) (by decide) (by decide)
     (Or.inr (by decide)) (by decide) (by decide) (by decide) (by decide)⟩

/-! ### C9: forced-mode measurement orchestration -/

theorem poll_measuring_stuck (bus : bme280_bus_t)
    (hrc : (bus.read BME280_REG_STATUS 1).1 = 0)
    (hbit : byteAt (bus.read BME280_REG_STATUS 1).2 0 &&& 0x08 ≠ 0) :
    ∀ n, bme280_poll_measuring bus n =
      (0, (List.replicate n [BusEvent.readEv BME280_REG_STATUS 1, BusEvent.delayEv 5]).flatten) := by
  intro n
  induction n with
  | zero => simp [bme280_poll_measuring]
  | succ n ih =>
    simp [bme280_poll_measuring, bme280_read_u8, hrc, hbit, ih, List.replicate_succ]

theorem poll_measuring_err (bus : bme280_bus_t) (n : Nat)
    (hne : (bus.read BME280_REG_STATUS 1).1 ≠ 0) :
    bme280_poll_measuring bus (n + 1) =
      ((bus.read BME280_REG_STATUS 1).1, [BusEvent.readEv BME280_REG_STATUS 1]) := by
  simp [bme280_poll_measuring, bme280_read_u8, hne]

/-- A device whose in-memory mode is forced, used for C9. -/
def dev_forced : bme280_t :=
  { calib := calib_example, settings := ⟨1, 1, 1, 0, 5, 1⟩, t_fine := 0, calib_loaded := true }

/-- A bus whose ctrl_meas register already reads with mode bits = 01 (forced),
whose measuring bit is clear, and whose raw burst succeeds. -/
def bus_c9ce : bme280_bus_t :=
  { read := fun reg len =>
      if reg = 0xF4 then (0, [0x01])
      else if reg = 0xF3 then (0, [0x00])
      else if reg = 0xF7 ∧ len = 8 then (0, [0x65, 0x5A, 0xC0, 0x7E, 0xED, 0x00, 0x66, 0x51])
      else (0, [0])
    write := fun _ _ => 0 }

/-- Counterexample to C9 as stated: with the in-memory mode forced but the
ctrl_meas register already reading mode bits 01, the measurement succeeds while
issuing NO mode-set write at all — the read-modify-write helper elides it — so
"first issues the mode-set write" fails; the trace is just the ctrl_meas read,
one status read, and the raw burst read. -/
theorem bme280_c9_mode_write_elided_counterexample :
    dev_forced.settings.mode = 1 ∧
    (bme280_read_measurement bus_c9ce dev_forced).1 = 0 ∧
    (bme280_read_measurement bus_c9ce dev_forced).2.2.2 =
      [BusEvent.readEv BME280_REG_CTRL_MEAS 1, BusEvent.readEv BME280_REG_STATUS 1,
        BusEvent.readEv BME280_REG_PRESS_MSB 8] := by
  refine ⟨rfl, ?_, ?_⟩ <;> decide

/-- C9 amended: when the in-memory mode is forced, `bme280_read_measurement`
first performs the mode-set update (a ctrl_meas read, and a ctrl_meas write
exactly when the mode bits change), then polls the measuring status bit at most
50 times with a 5 ms delay between polls.  Against a bus whose status read
never clears the bit it performs exactly 50 poll iterations and then proceeds
to read the raw registers anyway (timeout is not fatal); a bus error on the
poll read aborts immediately and returns that error, with a single status read
and no delay in the trace. -/
theorem bme280_c9_forced_poll_amended (bus : bme280_bus_t) (dev : bme280_t)
    (cm nv : Nat)
    (hm : dev.settings.mode = 1)
    (hrc4 : (bus.read BME280_REG_CTRL_MEAS 1).1 = 0)
    (hcm : cm = byteAt (bus.read BME280_REG_CTRL_MEAS 1).2 0)
    (hnv : nv = (cm &&& (255 ^^^ 0x03)) ||| (1 &&& 0x03))
    (hw : nv = cm ∨ bus.write BME280_REG_CTRL_MEAS [nv] = 0) :
    ((bus.read BME280_REG_STATUS 1).1 = 0 →
      byteAt (bus.read BME280_REG_STATUS 1).2 0 &&& 0x08 ≠ 0 →
      (bus.read BME280_REG_PRESS_MSB 8).1 = 0 →
      (bme280_read_measurement bus dev).1 = 0 ∧
      (bme280_read_measurement bus dev).2.2.2 =
        (if nv = cm then [BusEvent.readEv BME280_REG_CTRL_MEAS 1]
         else [BusEvent.readEv BME280_REG_CTRL_MEAS 1,
           BusEvent.writeEv BME280_REG_CTRL_MEAS [nv]]) ++
        (List.replicate 50 [BusEvent.readEv BME280_REG_STATUS 1,
          BusEvent.delayEv 5]).flatten ++
        [BusEvent.readEv BME280_REG_PRESS_MSB 8] ∧
      ((bme280_read_measurement bus dev).2.2.2.count
        (BusEvent.readEv BME280_REG_STATUS 1)) = 50) ∧
    ((bus.read BME280_REG_STATUS 1).1 ≠ 0 →
      (bme280_read_measurement bus dev).1 = (bus.read BME280_REG_STATUS 1).1 ∧
      (bme280_read_measurement bus dev).2.2.1 = none ∧
      (bme280_read_measurement bus dev).2.2.2 =
        (if nv = cm then [BusEvent.readEv BME280_REG_CTRL_MEAS 1]
         else [BusEvent.readEv BME280_REG_CTRL_MEAS 1,
           BusEvent.writeEv BME280_REG_CTRL_MEAS [nv]]) ++
        [BusEvent.readEv BME280_REG_STATUS 1]) := by
  subst hnv hcm
  have hsm : bme280_set_mode bus dev 1 =
      (0, { dev with settings := { dev.settings with mode := 1 } },
        if (byteAt (bus.read BME280_REG_CTRL_MEAS 1).2 0 &&& (255 ^^^ 0x03)) |||
            (1 &&& 0x03) = byteAt (bus.read BME280_REG_CTRL_MEAS 1).2 0
        then [BusEvent.readEv BME280_REG_CTRL_MEAS 1]
        else [BusEvent.readEv BME280_REG_CTRL_MEAS 1,
          BusEvent.writeEv BME280_REG_CTRL_MEAS
            [(byteAt (bus.read BME280_REG_CTRL_MEAS 1).2 0 &&& (255 ^^^ 0x03)) |||
              (1 &&& 0x03)]]) := by
    by_cases he : (byteAt (bus.read BME280_REG_CTRL_MEAS 1).2 0 &&& (255 ^^^ 0x03)) |||
        (1 &&& 0x03) = byteAt (bus.read BME280_REG_CTRL_MEAS 1).2 0
    · have he2 := he
      simp only [bme280_set_mode, bme280_update_bits, hrc4]
      simp at he2
      simp [he2, he]
    · have hwr := hw.resolve_left he
      have he2 := he
      simp only [bme280_set_mode, bme280_update_bits, hrc4]
      simp at he2 hwr
      simp [he2, he, hwr]
  constructor
  · intro hst hbit hraw
    have hpoll := poll_measuring_stuck bus hst hbit 50
    have hrm : bme280_read_measurement bus dev =
        bme280_read_after_wait bus { dev with settings := { dev.settings with mode := 1 } }
          ((bme280_set_mode bus dev 1).2.2 ++
            (List.replicate 50 [BusEvent.readEv BME280_REG_STATUS 1,
              BusEvent.delayEv 5]).flatten) := by
      simp only [bme280_read_measurement, hm, if_pos rfl, hsm, hpoll]
      simp
    have hcnd : ¬((bme280_read_raw bus).1 ≠ 0) := by simp [bme280_read_raw, hraw]
    have hrwt : (bme280_read_raw bus).2.2 = [BusEvent.readEv BME280_REG_PRESS_MSB 8] := by
      simp [bme280_read_raw, hraw]
    have htr : (bme280_read_measurement bus dev).2.2.2 =
        (if (byteAt (bus.read BME280_REG_CTRL_MEAS 1).2 0 &&& (255 ^^^ 0x03)) |||
            (1 &&& 0x03) = byteAt (bus.read BME280_REG_CTRL_MEAS 1).2 0
         then [BusEvent.readEv BME280_REG_CTRL_MEAS 1]
         else [BusEvent.readEv BME280_REG_CTRL_MEAS 1,
           BusEvent.writeEv BME280_REG_CTRL_MEAS
             [(byteAt (bus.read BME280_REG_CTRL_MEAS 1).2 0 &&& (255 ^^^ 0x03)) |||
               (1 &&& 0x03)]]) ++
        (List.replicate 50 [BusEvent.readEv BME280_REG_STATUS 1,
          BusEvent.delayEv 5]).flatten ++
        [BusEvent.readEv BME280_REG_PRESS_MSB 8] := by
      rw [hrm]
      dsimp only [bme280_read_after_wait]
      rw [if_neg hcnd, hsm]
      dsimp only
      rw [hrwt]
    refine ⟨?_, htr, ?_⟩
    · rw [hrm]
      dsimp only [bme280_read_after_wait]
      rw [if_neg hcnd]
    · rw [htr, List.count_append, List.count_append]
      have hflat : ((List.replicate 50 [BusEvent.readEv BME280_REG_STATUS 1,
          BusEvent.delayEv 5]).flatten).count (BusEvent.readEv BME280_REG_STATUS 1) = 50 := by
        decide
      rw [hflat]
      split_ifs <;>
        simp [List.count_cons, BME280_REG_CTRL_MEAS, BME280_REG_STATUS, BME280_REG_PRESS_MSB]
  · intro hne
    have hpoll := poll_measuring_err bus 49 hne
    have hrm2 : bme280_read_measurement bus dev =
        ((bus.read BME280_REG_STATUS 1).1,
          { dev with settings := { dev.settings with mode := 1 } }, none,
          (bme280_set_mode bus dev 1).2.2 ++ [BusEvent.readEv BME280_REG_STATUS 1]) := by
      simp only [bme280_read_measurement, hm, if_pos rfl, hsm]
      rw [show (50 : Nat) = 49 + 1 from rfl, hpoll]
      simp [hne, hsm]
    rw [hrm2]
    refine ⟨rfl, rfl, ?_⟩
    simp [hsm]

/-- A bus whose measuring status bit never clears (STATUS always reads 0x08),
with ctrl_meas reading 0x00 and all writes succeeding. -/
def bus_stuck : bme280_bus_t :=
  { read := fun reg _ =>
      if reg = 0xF3 then (0, [0x08])
      else if reg = 0xF4 then (0, [0x00])
      else (0, [0x00])
    write := fun _ _ => 0 }

/-- Witness for the amended C9 on `bus_stuck`: the mode-set write [0x01] is
issued, exactly 50 status polls are performed, and the raw burst is read
anyway. -/
theorem bme280_c9_forced_poll_amended_witness :
    dev_forced.settings.mode = 1 ∧
    (bus_stuck.read BME280_REG_CTRL_MEAS 1).1 = 0 ∧
    (0 : Nat) = byteAt (bus_stuck.read BME280_REG_CTRL_MEAS 1).2 0 ∧
    (1 : Nat) = (0 &&& (255 ^^^ 0x03)) ||| (1 &&& 0x03) ∧
    bus_stuck.write BME280_REG_CTRL_MEAS [1] = 0 ∧
    (bus_stuck.read BME280_REG_STATUS 1).1 = 0 ∧
    byteAt (bus_stuck.read BME280_REG_STATUS 1).2 0 &&& 0x08 ≠ 0 ∧
    (bus_stuck.read BME280_REG_PRESS_MSB 8).1 = 0 ∧
    ((bme280_read_measurement bus_stuck dev_forced).1 = 0 ∧
     (bme280_read_measurement bus_stuck dev_forced).2.2.2 =
       (if (1 : Nat) = 0 then [BusEvent.readEv BME280_REG_CTRL_MEAS 1]
        else [BusEvent.readEv BME280_REG_CTRL_MEAS 1,
          BusEvent.writeEv BME280_REG_CTRL_MEAS [1]]) ++
       (List.replicate 50 [BusEvent.readEv BME280_REG_STATUS 1,
         BusEvent.delayEv 5]).flatten ++
       [BusEvent.readEv BME280_REG_PRESS_MSB 8] ∧
     ((bme280_read_measurement bus_stuck dev_forced).2.2.2.count
       (BusEvent.readEv BME280_REG_STATUS 1)) = 50) :=
  ⟨rfl, by decide, by decide, by decide, by decide, by decide, by decide, by decide,
   (bme280_c9_forced_poll_amended bus_stuck dev_forced 0 1 rfl (by decide) (by decide)
     (by decide) (Or.inr (by decide))).1 (by decide) (by decide) (by decide)⟩

/-! ### C10: init failure after calibration load keeps the loaded calibration -/

/-- The default settings `bme280_init` stores before pushing them to the device
(BME280.c lines 113-119): ×1 oversampling on all channels, filter off, 1000 ms
standby, sleep mode. -/
def bme280_default_settings : bme280_settings_t :=
  { osr_t := 1, osr_p := 1, osr_h := 1, filter := 0, standby := 5, mode := 0 }

/-- The device state reached inside `bme280_init` right after a successful
calibration load and the in-memory default-settings assignment (BME280.c lines
110-119), the state from which the four configuration calls are made. -/
def bme280_post_calib_dev (dev0 : bme280_t) (b1 b2 : List Nat) : bme280_t :=
  { calib := bme280_calib_part2 (bme280_calib_part1 dev0.calib b1) b2,
    settings := bme280_default_settings, t_fine := 0, calib_loaded := true }

/-- The first default-configuration step of `bme280_init` (line 121). -/
def bme280_cfg_so (bus : bme280_bus_t) (dev0 : bme280_t) (b1 b2 : List Nat) :
    Int × bme280_t × List BusEvent :=
  bme280_set_oversampling bus (bme280_post_calib_dev dev0 b1 b2) 1 1 1

/-- The second default-configuration step of `bme280_init` (line 123). -/
def bme280_cfg_sf (bus : bme280_bus_t) (dev0 : bme280_t) (b1 b2 : List Nat) :
    Int × bme280_t × List BusEvent :=
  bme280_set_filter bus (bme280_cfg_so bus dev0 b1 b2).2.1 0

/-- The third default-configuration step of `bme280_init` (line 125). -/
def bme280_cfg_ss (bus : bme280_bus_t) (dev0 : bme280_t) (b1 b2 : List Nat) :
    Int × bme280_t × List BusEvent :=
  bme280_set_standby bus (bme280_cfg_sf bus dev0 b1 b2).2.1 5

/-- The fourth default-configuration step of `bme280_init` (line 127). -/
def bme280_cfg_sm (bus : bme280_bus_t) (dev0 : bme280_t) (b1 b2 : List Nat) :
    Int × bme280_t × List BusEvent :=
  bme280_set_mode bus (bme280_cfg_ss bus dev0 b1 b2).2.1 0

theorem bme280_set_oversampling_keeps_calib (bus : bme280_bus_t) (d : bme280_t)
    (t p h : Nat) :
    (bme280_set_oversampling bus d t p h).2.1.calib = d.calib ∧
    (bme280_set_oversampling bus d t p h).2.1.calib_loaded = d.calib_loaded := by
  simp only [bme280_set_oversampling]
  split_ifs <;> simp

theorem bme280_set_filter_keeps_calib (bus : bme280_bus_t) (d : bme280_t) (f : Nat) :
    (bme280_set_filter bus d f).2.1.calib = d.calib ∧
    (bme280_set_filter bus d f).2.1.calib_loaded = d.calib_loaded := by
  simp only [bme280_set_filter]
  split_ifs <;> simp

theorem bme280_set_standby_keeps_calib (bus : bme280_bus_t) (d : bme280_t) (sb : Nat) :
    (bme280_set_standby bus d sb).2.1.calib = d.calib ∧
    (bme280_set_standby bus d sb).2.1.calib_loaded = d.calib_loaded := by
  simp only [bme280_set_standby]
  split_ifs <;> simp

theorem bme280_set_mode_keeps_calib (bus : bme280_bus_t) (d : bme280_t) (m : Nat) :
    (bme280_set_mode bus d m).2.1.calib = d.calib ∧
    (bme280_set_mode bus d m).2.1.calib_loaded = d.calib_loaded := by
  simp only [bme280_set_mode]
  split_ifs <;> simp

/-- No configuration step of the init chain touches the calibration store or
the `calib_loaded` flag: after each of the four steps the device still carries
the decoded constants with `calib_loaded = true`. -/
theorem bme280_cfg_calib_kept (bus : bme280_bus_t) (dev0 : bme280_t) (b1 b2 : List Nat) :
    ((bme280_cfg_so bus dev0 b1 b2).2.1.calib =
        bme280_calib_part2 (bme280_calib_part1 dev0.calib b1) b2 ∧
      (bme280_cfg_so bus dev0 b1 b2).2.1.calib_loaded = true) ∧
    ((bme280_cfg_sf bus dev0 b1 b2).2.1.calib =
        bme280_calib_part2 (bme280_calib_part1 dev0.calib b1) b2 ∧
      (bme280_cfg_sf bus dev0 b1 b2).2.1.calib_loaded = true) ∧
    ((bme280_cfg_ss bus dev0 b1 b2).2.1.calib =
        bme280_calib_part2 (bme280_calib_part1 dev0.calib b1) b2 ∧
      (bme280_cfg_ss bus dev0 b1 b2).2.1.calib_loaded = true) ∧
    ((bme280_cfg_sm bus dev0 b1 b2).2.1.calib =
        bme280_calib_part2 (bme280_calib_part1 dev0.calib b1) b2 ∧
      (bme280_cfg_sm bus dev0 b1 b2).2.1.calib_loaded = true) := by
  obtain ⟨a1, a2⟩ :=
    bme280_set_oversampling_keeps_calib bus (bme280_post_calib_dev dev0 b1 b2) 1 1 1
  obtain ⟨b1k, b2k⟩ := bme280_set_filter_keeps_calib bus (bme280_cfg_so bus dev0 b1 b2).2.1 0
  obtain ⟨c1, c2⟩ := bme280_set_standby_keeps_calib bus (bme280_cfg_sf bus dev0 b1 b2).2.1 5
  obtain ⟨d1, d2⟩ := bme280_set_mode_keeps_calib bus (bme280_cfg_ss bus dev0 b1 b2).2.1 0
  have hso : (bme280_cfg_so bus dev0 b1 b2).2.1.calib =
      bme280_calib_part2 (bme280_calib_part1 dev0.calib b1) b2 ∧
      (bme280_cfg_so bus dev0 b1 b2).2.1.calib_loaded = true := by
    rw [bme280_cfg_so, a1, a2]
    exact ⟨rfl, rfl⟩
  have hsf : (bme280_cfg_sf bus dev0 b1 b2).2.1.calib =
      bme280_calib_part2 (bme280_calib_part1 dev0.calib b1) b2 ∧
      (bme280_cfg_sf bus dev0 b1 b2).2.1.calib_loaded = true := by
    rw [bme280_cfg_sf, b1k, b2k]
    exact hso
  have hss : (bme280_cfg_ss bus dev0 b1 b2).2.1.calib =
      bme280_calib_part2 (bme280_calib_part1 dev0.calib b1) b2 ∧
      (bme280_cfg_ss bus dev0 b1 b2).2.1.calib_loaded = true := by
    rw [bme280_cfg_ss, c1, c2]
    exact hsf
  have hsm : (bme280_cfg_sm bus dev0 b1 b2).2.1.calib =
      bme280_calib_part2 (bme280_calib_part1 dev0.calib b1) b2 ∧
      (bme280_cfg_sm bus dev0 b1 b2).2.1.calib_loaded = true := by
    rw [bme280_cfg_sm, d1, d2]
    exact hss
  exact ⟨hso, hsf, hss, hsm⟩

/-- C10: if `bme280_init` gets through chip-id check, soft reset and
calibration load, and any one of the four subsequent default-configuration
steps (`set_oversampling`, `set_filter`, `set_standby`, `set_mode`) fails —
whatever the failing bus operation inside that step — init returns that step's
error; and (unconditionally, hence in particular on such failures) the returned
device keeps `calib_loaded = true` and the decoded calibration constants, so
later compensation calls compute full results from the loaded constants
instead of degrading to 0.0. -/
theorem bme280_c10_init_partial_failure (bus : bme280_bus_t) (dev0 : bme280_t)
    (b1 b2 : List Nat)
    (hid : bus.read BME280_REG_ID 1 = (0, [0x60]))
    (hrst : bus.write BME280_REG_RESET [0xB6] = 0)
    (hst : (bus.read BME280_REG_STATUS 1).1 = 0)
    (hstbit : byteAt (bus.read BME280_REG_STATUS 1).2 0 &&& 0x01 = 0)
    (hc1 : bus.read BME280_CALIB00_START 26 = (0, b1))
    (hc2 : bus.read BME280_CALIB26_START 7 = (0, b2)) :
    ((bme280_cfg_so bus dev0 b1 b2).1 ≠ 0 →
      (bme280_init bus dev0).1 = (bme280_cfg_so bus dev0 b1 b2).1) ∧
    ((bme280_cfg_so bus dev0 b1 b2).1 = 0 → (bme280_cfg_sf bus dev0 b1 b2).1 ≠ 0 →
      (bme280_init bus dev0).1 = (bme280_cfg_sf bus dev0 b1 b2).1) ∧
    ((bme280_cfg_so bus dev0 b1 b2).1 = 0 → (bme280_cfg_sf bus dev0 b1 b2).1 = 0 →
      (bme280_cfg_ss bus dev0 b1 b2).1 ≠ 0 →
      (bme280_init bus dev0).1 = (bme280_cfg_ss bus dev0 b1 b2).1) ∧
    ((bme280_cfg_so bus dev0 b1 b2).1 = 0 → (bme280_cfg_sf bus dev0 b1 b2).1 = 0 →
      (bme280_cfg_ss bus dev0 b1 b2).1 = 0 →
      (bme280_init bus dev0).1 = (bme280_cfg_sm bus dev0 b1 b2).1) ∧
    (bme280_init bus dev0).2.1.calib_loaded = true ∧
    (bme280_init bus dev0).2.1.calib =
      bme280_calib_part2 (bme280_calib_part1 dev0.calib b1) b2 ∧
    (∀ adc_T : Int,
      (bme280_compensate_temperature (bme280_init bus dev0).2.1 adc_T).1.t_fine =
        bme280_temp_fine (bme280_calib_part2 (bme280_calib_part1 dev0.calib b1) b2) adc_T ∧
      (bme280_compensate_temperature (bme280_init bus dev0).2.1 adc_T).2 =
        ((i32 (bme280_temp_fine (bme280_calib_part2 (bme280_calib_part1 dev0.calib b1) b2)
          adc_T * 5 + 128) : ℚ) / 256) / 100) := by
  have hsr : bme280_soft_reset bus =
      (0, [BusEvent.writeEv BME280_REG_RESET [0xB6], BusEvent.readEv BME280_REG_STATUS 1]) := by
    rw [bme280_soft_reset, show (20 : Nat) = 19 + 1 from rfl]
    simp [bme280_soft_reset_poll, bme280_write_u8, bme280_read_u8, hrst, hst, hstbit,
      BME280_SOFT_RESET]
  have hcal : bme280_read_calibration bus { dev0 with t_fine := 0, calib_loaded := false } =
      (0,
        { dev0 with
            calib := bme280_calib_part2 (bme280_calib_part1 dev0.calib b1) b2,
            t_fine := 0,
            calib_loaded := true },
        [BusEvent.readEv BME280_CALIB00_START 26, BusEvent.readEv BME280_CALIB26_START 7]) := by
    simp [bme280_read_calibration, hc1, hc2]
  have hinit : bme280_init bus dev0 =
      (if (bme280_cfg_so bus dev0 b1 b2).1 ≠ 0 then
        ((bme280_cfg_so bus dev0 b1 b2).1, (bme280_cfg_so bus dev0 b1 b2).2.1,
          [BusEvent.readEv BME280_REG_ID 1, BusEvent.writeEv BME280_REG_RESET [0xB6],
            BusEvent.readEv BME280_REG_STATUS 1, BusEvent.readEv BME280_CALIB00_START 26,
            BusEvent.readEv BME280_CALIB26_START 7] ++ (bme280_cfg_so bus dev0 b1 b2).2.2)
       else if (bme280_cfg_sf bus dev0 b1 b2).1 ≠ 0 then
        ((bme280_cfg_sf bus dev0 b1 b2).1, (bme280_cfg_sf bus dev0 b1 b2).2.1,
          [BusEvent.readEv BME280_REG_ID 1, BusEvent.writeEv BME280_REG_RESET [0xB6],
            BusEvent.readEv BME280_REG_STATUS 1, BusEvent.readEv BME280_CALIB00_START 26,
            BusEvent.readEv BME280_CALIB26_START 7] ++ (bme280_cfg_so bus dev0 b1 b2).2.2 ++
          (bme280_cfg_sf bus dev0 b1 b2).2.2)
       else if (bme280_cfg_ss bus dev0 b1 b2).1 ≠ 0 then
        ((bme280_cfg_ss bus dev0 b1 b2).1, (bme280_cfg_ss bus dev0 b1 b2).2.1,
          [BusEvent.readEv BME280_REG_ID 1, BusEvent.writeEv BME280_REG_RESET [0xB6],
            BusEvent.readEv BME280_REG_STATUS 1, BusEvent.readEv BME280_CALIB00_START 26,
            BusEvent.readEv BME280_CALIB26_START 7] ++ (bme280_cfg_so bus dev0 b1 b2).2.2 ++
          (bme280_cfg_sf bus dev0 b1 b2).2.2 ++ (bme280_cfg_ss bus dev0 b1 b2).2.2)
       else
        ((bme280_cfg_sm bus dev0 b1 b2).1, (bme280_cfg_sm bus dev0 b1 b2).2.1,
          [BusEvent.readEv BME280_REG_ID 1, BusEvent.writeEv BME280_REG_RESET [0xB6],
            BusEvent.readEv BME280_REG_STATUS 1, BusEvent.readEv BME280_CALIB00_START 26,
            BusEvent.readEv BME280_CALIB26_START 7] ++ (bme280_cfg_so bus dev0 b1 b2).2.2 ++
          (bme280_cfg_sf bus dev0 b1 b2).2.2 ++ (bme280_cfg_ss bus dev0 b1 b2).2.2 ++
          (bme280_cfg_sm bus dev0 b1 b2).2.2)) := by
    simp only [bme280_init, hid, hsr, hcal, bme280_cfg_so, bme280_cfg_sf, bme280_cfg_ss,
      bme280_cfg_sm, bme280_post_calib_dev, bme280_default_settings]
    simp [byteAt, BME280_CHIP_ID]
  obtain ⟨⟨k1, k2⟩, ⟨k3, k4⟩, ⟨k5, k6⟩, ⟨k7, k8⟩⟩ := bme280_cfg_calib_kept bus dev0 b1 b2
  have hloaded : (bme280_init bus dev0).2.1.calib_loaded = true := by
    rw [hinit]
    split_ifs <;> simp [k2, k4, k6, k8]
  have hcalib : (bme280_init bus dev0).2.1.calib =
      bme280_calib_part2 (bme280_calib_part1 dev0.calib b1) b2 := by
    rw [hinit]
    split_ifs <;> simp [k1, k3, k5, k7]
  refine ⟨?_, ?_, ?_, ?_, hloaded, hcalib, ?_⟩
  · intro h1
    rw [hinit, if_pos h1]
  · intro h1 h2
    rw [hinit, if_neg (by simp [h1]), if_pos h2]
  · intro h1 h2 h3
    rw [hinit, if_neg (by simp [h1]), if_neg (by simp [h2]), if_pos h3]
  · intro h1 h2 h3
    rw [hinit, if_neg (by simp [h1]), if_neg (by simp [h2]), if_neg (by simp [h3])]
  · intro adc_T
    constructor
    · simp [bme280_compensate_temperature, hloaded, hcalib]
    · simp [bme280_compensate_temperature, hloaded, hcalib]

/-- A bus on which chip-id, reset, status, calibration and the whole
oversampling step succeed, but the CONFIG register read fails with a
communication error (-2), so `bme280_init` fails at its `set_filter` step. -/
def bus_c10b : bme280_bus_t :=
  { read := fun reg len =>
      if reg = 0xD0 then (0, [0x60])
      else if reg = 0xF2 then (0, [0x02])
      else if reg = 0xF4 then (0, [0x00])
      else if reg = 0xF5 then (-2, [])
      else if reg = 0x88 ∧ len = 26 then (0, calib_b1)
      else if reg = 0xE1 ∧ len = 7 then (0, calib_b2)
      else (0, [0])
    write := fun _ _ => 0 }

/-- Witness for C10 on `bus_c10b`: the oversampling step succeeds, the filter
step fails with -2, init returns -2, yet the returned device has the
calibration loaded and temperature compensation computes the full formula at
raw count 519888. -/
theorem bme280_c10_init_partial_failure_witness :
    bus_c10b.read BME280_REG_ID 1 = (0, [0x60]) ∧
    bus_c10b.write BME280_REG_RESET [0xB6] = 0 ∧
    (bus_c10b.read BME280_REG_STATUS 1).1 = 0 ∧
    byteAt (bus_c10b.read BME280_REG_STATUS 1).2 0 &&& 0x01 = 0 ∧
    bus_c10b.read BME280_CALIB00_START 26 = (0, calib_b1) ∧
    bus_c10b.read BME280_CALIB26_START 7 = (0, calib_b2) ∧
    (bme280_cfg_so bus_c10b dev_unloaded calib_b1 calib_b2).1 = 0 ∧
    (bme280_cfg_sf bus_c10b dev_unloaded calib_b1 calib_b2).1 ≠ 0 ∧
    (bme280_init bus_c10b dev_unloaded).1 =
      (bme280_cfg_sf bus_c10b dev_unloaded calib_b1 calib_b2).1 ∧
    (bme280_init bus_c10b dev_unloaded).2.1.calib_loaded = true ∧
    (bme280_init bus_c10b dev_unloaded).2.1.calib =
      bme280_calib_part2 (bme280_calib_part1 dev_unloaded.calib calib_b1) calib_b2 ∧
    (bme280_compensate_temperature (bme280_init bus_c10b dev_unloaded).2.1 519888).1.t_fine =
      bme280_temp_fine
        (bme280_calib_part2 (bme280_calib_part1 dev_unloaded.calib calib_b1) calib_b2)
        519888 :=
  ⟨by decide, by decide, by decide, by decide, by decide, by decide, by decide, by decide,
   (bme280_c10_init_partial_failure bus_c10b dev_unloaded calib_b1 calib_b2
       (by decide) (by decide) (by decide) (by decide) (by decide) (by decide)).2.1
     (by decide) (by decide),
   (bme280_c10_init_partial_failure bus_c10b dev_unloaded calib_b1 calib_b2
       (by decide) (by decide) (by decide) (by decide) (by decide) (by decide)).2.2.2.2.1,
   (bme280_c10_init_partial_failure bus_c10b dev_unloaded calib_b1 calib_b2
       (by decide) (by decide) (by decide) (by decide) (by decide) (by decide)).2.2.2.2.2.1,
   ((bme280_c10_init_partial_failure bus_c10b dev_unloaded calib_b1 calib_b2
       (by decide) (by decide) (by decide) (by decide) (by decide)
       (by decide)).2.2.2.2.2.2 519888).1⟩
